import Mathlib

/-!
Shallow embedding of the auth-backend authorization service
(`app/services/validation.py`, `app/services/session_service.py`,
`app/services/token_service.py`, `app/utils/session_id.py`, `app/models/*`).

The database is modelled as an explicit state (lists of rows); each Python
service method becomes a Lean function threading that state.  Timestamps are
integers (seconds); every call to `datetime.now()` inside one request is
modelled by a single `now` parameter of the evaluation.
-/

set_option maxRecDepth 10000

namespace SHA256

/-- Truncate to a 32-bit word, as Python's hashlib arithmetic does. -/
def mask32 (x : Nat) : Nat := x % 4294967296

/-- 32-bit addition. -/
def add32 (a b : Nat) : Nat := (a + b) % 4294967296

/-- Right rotation of a 32-bit word by `n`. -/
def rotr (n x : Nat) : Nat := ((x >>> n) ||| (x <<< (32 - n))) % 4294967296

/-- SHA-256 round constants. -/
def K : List Nat :=
  [1116352408, 1899447441, 3049323471, 3921009573,
   961987163, 1508970993, 2453635748, 2870763221,
   3624381080, 310598401, 607225278, 1426881987,
   1925078388, 2162078206, 2614888103, 3248222580,
   3835390401, 4022224774, 264347078, 604807628,
   770255983, 1249150122, 1555081692, 1996064986,
   2554220882, 2821834349, 2952996808, 3210313671,
   3336571891, 3584528711, 113926993, 338241895,
   666307205, 773529912, 1294757372, 1396182291,
   1695183700, 1986661051, 2177026350, 2456956037,
   2730485921, 2820302411, 3259730800, 3345764771,
   3516065817, 3600352804, 4094571909, 275423344,
   430227734, 506948616, 659060556, 883997877,
   958139571, 1322822218, 1537002063, 1747873779,
   1955562222, 2024104815, 2227730452, 2361852424,
   2428436474, 2756734187, 3204031479, 3329325298]

/-- Running hash state: eight 32-bit words. -/
structure Hash where
  h0 : Nat
  h1 : Nat
  h2 : Nat
  h3 : Nat
  h4 : Nat
  h5 : Nat
  h6 : Nat
  h7 : Nat
deriving Repr, DecidableEq

/-- SHA-256 initial hash value. -/
def H0 : Hash :=
  ⟨1779033703, 3144134277, 1013904242, 2773480762,
   1359893119, 2600822924, 528734635, 1541459225⟩

def smallSigma0 (x : Nat) : Nat := (rotr 7 x) ^^^ (rotr 18 x) ^^^ (x >>> 3)

def smallSigma1 (x : Nat) : Nat := (rotr 17 x) ^^^ (rotr 19 x) ^^^ (x >>> 10)

def bigSigma0 (x : Nat) : Nat := (rotr 2 x) ^^^ (rotr 13 x) ^^^ (rotr 22 x)

def bigSigma1 (x : Nat) : Nat := (rotr 6 x) ^^^ (rotr 11 x) ^^^ (rotr 25 x)

def ch (x y z : Nat) : Nat := (x &&& y) ^^^ ((x ^^^ 0xffffffff) &&& z)

def maj (x y z : Nat) : Nat := (x &&& y) ^^^ (x &&& z) ^^^ (y &&& z)

/-- Extend the 16 block words to the 64-word message schedule.  `acc` holds the
words produced so far, most recent first; the result is in forward order. -/
def extendSchedule : Nat → List Nat → List Nat
  | 0, acc => acc.reverse
  | n + 1, acc =>
      let g := fun i => acc.getD i 0
      extendSchedule n
        (add32 (add32 (smallSigma1 (g 1)) (g 6)) (add32 (smallSigma0 (g 14)) (g 15)) :: acc)

/-- One compression round; the state is the eight working variables `(a,…,h)`. -/
def roundStep (st : Nat × Nat × Nat × Nat × Nat × Nat × Nat × Nat) (kw : Nat × Nat) :
    Nat × Nat × Nat × Nat × Nat × Nat × Nat × Nat :=
  let (a, b, c, d, e, f, g, h) := st
  let t1 := add32 (add32 (add32 h (bigSigma1 e)) (add32 (ch e f g) kw.1)) kw.2
  let t2 := add32 (bigSigma0 a) (maj a b c)
  (add32 t1 t2, a, b, c, add32 d t1, e, f, g)

/-- Compress one 16-word block into the running hash. -/
def compress (h : Hash) (block : List Nat) : Hash :=
  let ws := extendSchedule 48 block.reverse
  let (a, b, c, d, e, f, g, hh) :=
    (K.zip ws).foldl roundStep (h.h0, h.h1, h.h2, h.h3, h.h4, h.h5, h.h6, h.h7)
  ⟨add32 h.h0 a, add32 h.h1 b, add32 h.h2 c, add32 h.h3 d,
   add32 h.h4 e, add32 h.h5 f, add32 h.h6 g, add32 h.h7 hh⟩

/-- Big-endian byte rendering of `n` on `count` bytes. -/
def natToBytes (count n : Nat) : List Nat :=
  (List.range count).map fun i => (n >>> (8 * (count - 1 - i))) &&& 0xff

/-- SHA-256 padding: append `0x80`, zero bytes up to 56 mod 64, then the
64-bit big-endian bit length. -/
def padMessage (msg : List Nat) : List Nat :=
  let len := msg.length
  let zeros := (119 - len % 64) % 64
  msg ++ [0x80] ++ List.replicate zeros 0 ++ natToBytes 8 (len * 8)

/-- Group bytes into big-endian 32-bit words. -/
def bytesToWords : List Nat → List Nat
  | b0 :: b1 :: b2 :: b3 :: rest =>
      ((b0 <<< 24) ||| (b1 <<< 16) ||| (b2 <<< 8) ||| b3) :: bytesToWords rest
  | _ => []

/-- Split the word list into 16-word blocks (`fuel` bounds the recursion). -/
def chunkWords : Nat → List Nat → List (List Nat)
  | 0, _ => []
  | _ + 1, [] => []
  | n + 1, ws => ws.take 16 :: chunkWords n (ws.drop 16)

/-- The SHA-256 hash of a byte list. -/
def sha256 (msg : List Nat) : Hash :=
  let ws := bytesToWords (padMessage msg)
  (chunkWords ws.length ws).foldl compress H0

def hexDigit (n : Nat) : Char := Char.ofNat (if n < 10 then 48 + n else 87 + n)

/-- Lowercase hex rendering of one 32-bit word (eight digits). -/
def wordHex (w : Nat) : List Char :=
  [hexDigit ((w >>> 28) &&& 15), hexDigit ((w >>> 24) &&& 15),
   hexDigit ((w >>> 20) &&& 15), hexDigit ((w >>> 16) &&& 15),
   hexDigit ((w >>> 12) &&& 15), hexDigit ((w >>> 8) &&& 15),
   hexDigit ((w >>> 4) &&& 15), hexDigit (w &&& 15)]

/-- `hexdigest()`: the 64-character lowercase-hex form of the digest. -/
def hexDigest (h : Hash) : String :=
  String.mk (wordHex h.h0 ++ wordHex h.h1 ++ wordHex h.h2 ++ wordHex h.h3 ++
             wordHex h.h4 ++ wordHex h.h5 ++ wordHex h.h6 ++ wordHex h.h7)

/-- UTF-8 encoding of one character (Python's `str.encode("utf-8")`). -/
def utf8Bytes (c : Char) : List Nat :=
  let n := c.toNat
  if n < 0x80 then [n]
  else if n < 0x800 then [0xc0 ||| (n >>> 6), 0x80 ||| (n &&& 0x3f)]
  else if n < 0x10000 then
    [0xe0 ||| (n >>> 12), 0x80 ||| ((n >>> 6) &&& 0x3f), 0x80 ||| (n &&& 0x3f)]
  else
    [0xf0 ||| (n >>> 18), 0x80 ||| ((n >>> 12) &&& 0x3f),
     0x80 ||| ((n >>> 6) &&& 0x3f), 0x80 ||| (n &&& 0x3f)]

/-- UTF-8 bytes of a string. -/
def strBytes (s : String) : List Nat := (s.data.map utf8Bytes).flatten

end SHA256

/-- `app/utils/session_id.py` `generate_session_id`: the SHA-256 hex digest of
the bare concatenation `f"{stream_name}{client_ip}{token}"`, UTF-8 encoded. -/
def generate_session_id (stream_name client_ip token : String) : String :=
  SHA256.hexDigest (SHA256.sha256 (SHA256.strBytes (stream_name ++ client_ip ++ token)))

/-! ## Data model (`app/models/token.py`, `app/models/session.py`, `app/models/log.py`)

`valid_from`, `valid_until`, `started_at`, `last_checked_at`, `expires_at` and
`updated_at` are timestamps, modelled as integers.  The `allowed_ips` /
`allowed_streams` columns hold JSON text in the source; they are modelled here
as the value `get_allowed_ips` / `get_allowed_streams` returns, namely `none`
when the column is empty (or unparsable) and the parsed string list otherwise. -/

/-- One row of the `tokens` table (`app/models/token.py`). -/
structure Token where
  id : Nat
  token : String
  user_id : String
  status : String
  max_sessions : Nat
  valid_from : Int
  valid_until : Option Int
  allowed_ips : Option (List String)
  allowed_streams : Option (List String)
  meta : Option String
  created_at : Int
  updated_at : Int
deriving Repr, DecidableEq

/-- `Token.get_allowed_ips`: the parsed allow-list (see structure docstring). -/
def Token.get_allowed_ips (t : Token) : Option (List String) := t.allowed_ips

/-- `Token.get_allowed_streams`: the parsed allow-list. -/
def Token.get_allowed_streams (t : Token) : Option (List String) := t.allowed_streams

/-- One row of the `active_sessions` table (`app/models/session.py`).
The`session_id` column carries a uniqueness constraint in the store. -/
structure ActiveSession where
  id : Nat
  session_id : String
  token_id : Nat
  user_id : String
  stream_name : String
  client_ip : String
  protocol : String
  started_at : Int
  last_checked_at : Int
  expires_at : Option Int
deriving Repr, DecidableEq

/-- One row of the `access_logs` table (`app/models/log.py`); only the fields
`_log_access` sets are modelled (`timestamp` and `id` are store defaults). -/
structure AccessLog where
  token : String
  user_id : Option String
  stream_name : String
  client_ip : String
  protocol : String
  result : String
  reason : String
deriving Repr, DecidableEq

/-- The persistent store: the three tables the decision path touches. -/
structure DB where
  tokens : List Token
  sessions : List ActiveSession
  logs : List AccessLog
deriving Repr, DecidableEq

/-- The configuration values `validation.py` reads (`settings.AUTH_DURATION`,
`settings.ENABLE_ACCESS_LOGS`); the config layer bounds the duration to
30–3600 seconds. -/
structure Settings where
  AUTH_DURATION : Int
  ENABLE_ACCESS_LOGS : Bool
deriving Repr, DecidableEq

/-- Python truthiness of an `Optional[list]`: `None` and `[]` are falsy. -/
def listTruthy : Option (List String) → Bool
  | none => false
  | some l => !l.isEmpty

/-- Step-3 condition `token_obj.valid_until and now > token_obj.valid_until`
(a `None` bound is falsy). -/
def Token.pastValidUntil (t : Token) (now : Int) : Bool :=
  match t.valid_until with
  | some vu => decide (now > vu)
  | none => false

/-- Step-4 condition `allowed_ips and client_ip not in allowed_ips`. -/
def Token.ipDenies (t : Token) (client_ip : String) : Bool :=
  match t.get_allowed_ips with
  | some l => !l.isEmpty && !(l.contains client_ip)
  | none => false

/-- Step-5 condition `allowed_streams and stream_name not in allowed_streams`. -/
def Token.streamDenies (t : Token) (stream_name : String) : Bool :=
  match t.get_allowed_streams with
  | some l => !l.isEmpty && !(l.contains stream_name)
  | none => false

/-! ## Token service (`app/services/token_service.py`) -/

namespace TokenService

/-- `TokenService.get_by_token`: first row whose `token` column matches. -/
def get_by_token (db : DB) (token : String) : Option Token :=
  db.tokens.find? fun t => t.token == token

/-- `TokenService.get_by_id`: first row whose `id` matches. -/
def get_by_id (db : DB) (token_id : Nat) : Option Token :=
  db.tokens.find? fun t => t.id == token_id

/-- `TokenService.update_token(db, token_id, status=...)` as called from the
lazy-expiry branch: when the token exists, set its `status` and stamp
`updated_at`; the `id` column is the primary key, so at most one row matches. -/
def update_token_status (db : DB) (token_id : Nat) (status : String) (now : Int) : DB :=
  if (get_by_id db token_id).isSome then
    { db with tokens := db.tokens.map fun t =>
        if t.id == token_id then { t with status := status, updated_at := now } else t }
  else db

end TokenService

/-! ## Session service (`app/services/session_service.py`) -/

namespace SessionService

/-- `SessionService.get_by_session_id`: first row whose `session_id` matches. -/
def get_by_session_id (db : DB) (session_id : String) : Option ActiveSession :=
  db.sessions.find? fun s => s.session_id == session_id

/-- The non-expired filter used by the count/list queries:
`expires_at IS NULL OR expires_at > now`. -/
def sessionActive (now : Int) (s : ActiveSession) : Bool :=
  match s.expires_at with
  | none => true
  | some e => now < e

/-- The count query of `count_active_sessions_by_user` over a sessions table:
the user's non-expired rows, minus `exclude_session_id` when that argument is
truthy (Python: `if exclude_session_id:` skips `None` and `""`). -/
def countQuery (sessions : List ActiveSession) (user_id : String) (now : Int)
    (exclude_session_id : Option String) : Nat :=
  let base := sessions.filter fun s => s.user_id == user_id && sessionActive now s
  match exclude_session_id with
  | none => base.length
  | some ex => if ex == "" then base.length
               else (base.filter fun s => s.session_id != ex).length

/-- `SessionService.count_active_sessions_by_user`. -/
def count_active_sessions_by_user (db : DB) (user_id : String) (now : Int)
    (exclude_session_id : Option String) : Nat :=
  countQuery db.sessions user_id now exclude_session_id

/-- `SessionService.create_session`: insert a fresh row with
`started_at = last_checked_at = now` and `expires_at = now + auth_duration`.
The `id` column is autoincrement and never read by the decision path; the
model fills it from the current table size. -/
def create_session (db : DB) (session_id : String) (token_id : Nat)
    (user_id stream_name client_ip protocol : String) (auth_duration now : Int) : DB :=
  { db with sessions := db.sessions ++
      [{ id := db.sessions.length, session_id := session_id, token_id := token_id, user_id := user_id,
         stream_name := stream_name, client_ip := client_ip, protocol := protocol,
         started_at := now, last_checked_at := now, expires_at := some (now + auth_duration) }] }

/-- `SessionService.update_session_last_check`: when the row exists, stamp
`last_checked_at = now` and push `expires_at` to `now + auth_duration`;
`session_id` is unique in the store, so at most one row matches. -/
def update_session_last_check (db : DB) (session_id : String) (auth_duration now : Int) : DB :=
  if (get_by_session_id db session_id).isSome then
    { db with sessions := db.sessions.map fun s =>
        if s.session_id == session_id then
          { s with last_checked_at := now, expires_at := some (now + auth_duration) }
        else s }
  else db

/-- `SessionService.delete_session`: delete the row for this (unique)
`session_id`, reporting whether one existed. -/
def delete_session (db : DB) (session_id : String) : Bool × DB :=
  if (get_by_session_id db session_id).isSome then
    (true, { db with sessions := db.sessions.filter fun s => s.session_id != session_id })
  else (false, db)

/-- The sweeper's selection: `expires_at IS NOT NULL AND expires_at < now`. -/
def sessionExpired (now : Int) (s : ActiveSession) : Bool :=
  match s.expires_at with
  | none => false
  | some e => e < now

/-- `SessionService.cleanup_expired_sessions`: one select-then-delete pass,
returning the number of deleted rows. -/
def cleanup_expired_sessions (db : DB) (now : Int) : Nat × DB :=
  let expired := db.sessions.filter (sessionExpired now)
  (expired.length, { db with sessions := db.sessions.filter fun s => !sessionExpired now s })

end SessionService

/-! ## Validation service (`app/services/validation.py`) -/

namespace ValidationService

/-- `ValidationService._log_access`: append one audit row, unless access
logging is disabled by configuration. -/
def _log_access (settings : Settings) (db : DB) (token : String) (user_id : Option String)
    (stream_name client_ip protocol result reason : String) : DB :=
  if !settings.ENABLE_ACCESS_LOGS then db
  else
    { db with logs := db.logs ++
        [{ token := token, user_id := user_id, stream_name := stream_name,
           client_ip := client_ip, protocol := protocol, result := result, reason := reason }] }

/-- `ValidationService.validate_authorization`.  Returns the Python triple
`(is_allowed, denial_reason, token_obj)` together with the store as left after
the call.  `now` stands for the `datetime.now()` readings taken during the
request.  On the lazy-expiry branch the source returns the very ORM object
that `update_token` just mutated, hence the updated record in the result. -/
def validate_authorization (settings : Settings) (db : DB)
    (stream_name client_ip token : String) (protocol : String) (now : Int) :
    (Bool × Option String × Option Token) × DB :=
  -- 1. Look up token
  match TokenService.get_by_token db token with
  | none =>
      ((false, some "token_not_found", none),
       _log_access settings db token none stream_name client_ip protocol "denied" "token_not_found")
  | some token_obj =>
    -- 2. Check token status
    if token_obj.status == "suspended" then
      ((false, some "token_suspended", some token_obj),
       _log_access settings db token (some token_obj.user_id) stream_name client_ip protocol
         "denied" "token_suspended")
    else if token_obj.status == "expired" then
      ((false, some "token_expired", some token_obj),
       _log_access settings db token (some token_obj.user_id) stream_name client_ip protocol
         "denied" "token_expired")
    -- 3. Check validity period
    else if now < token_obj.valid_from then
      ((false, some "token_not_yet_valid", some token_obj),
       _log_access settings db token (some token_obj.user_id) stream_name client_ip protocol
         "denied" "token_not_yet_valid")
    else if token_obj.pastValidUntil now then
      -- Auto-expire the token
      let db1 := TokenService.update_token_status db token_obj.id "expired" now
      ((false, some "token_expired", some { token_obj with status := "expired", updated_at := now }),
       _log_access settings db1 token (some token_obj.user_id) stream_name client_ip protocol
         "denied" "token_expired")
    -- 4. Check IP whitelist  (`if allowed_ips and client_ip not in allowed_ips`)
    else if token_obj.ipDenies client_ip then
      ((false, some "ip_not_allowed", some token_obj),
       _log_access settings db token (some token_obj.user_id) stream_name client_ip protocol
         "denied" "ip_not_allowed")
    -- 5. Check stream whitelist
    else if token_obj.streamDenies stream_name then
      ((false, some "stream_not_allowed", some token_obj),
       _log_access settings db token (some token_obj.user_id) stream_name client_ip protocol
         "denied" "stream_not_allowed")
    else
      -- 6. Check concurrent sessions limit
      let session_id := generate_session_id stream_name client_ip token
      match SessionService.get_by_session_id db session_id with
      | some _ =>
          -- Re-check of an existing session
          let db1 := SessionService.update_session_last_check db session_id
            settings.AUTH_DURATION now
          ((true, none, some token_obj),
           _log_access settings db1 token (some token_obj.user_id) stream_name client_ip protocol
             "allowed" "session_recheck")
      | none =>
          -- New session attempt - check limit
          let active_count := SessionService.count_active_sessions_by_user db token_obj.user_id
            now (some session_id)
          if token_obj.max_sessions ≤ active_count then
            ((false, some "max_sessions_reached", some token_obj),
             _log_access settings db token (some token_obj.user_id) stream_name client_ip protocol
               "denied"
               ("max_sessions_reached (" ++ toString active_count ++ "/" ++
                toString token_obj.max_sessions ++ ")"))
          else
            let db1 := SessionService.create_session db session_id token_obj.id token_obj.user_id
              stream_name client_ip protocol settings.AUTH_DURATION now
            ((true, none, some token_obj),
             _log_access settings db1 token (some token_obj.user_id) stream_name client_ip protocol
               "allowed" "new_session")

end ValidationService

/-- The stable reason taxonomy of the spec (§7). -/
def reasonTaxonomy : List String :=
  ["token_not_found", "token_suspended", "token_expired", "token_not_yet_valid",
   "ip_not_allowed", "stream_not_allowed", "max_sessions_reached",
   "new_session", "session_recheck"]

/-- Run a list of `(stream_name, client_ip)` requests for one token through
the decision engine at one time, collecting the results in order. -/
def runRequests (settings : Settings) (token protocol : String) (now : Int) :
    DB → List (String × String) → List (Bool × Option String × Option Token) × DB
  | db, [] => ([], db)
  | db, (s, ip) :: rest =>
      let step := ValidationService.validate_authorization settings db s ip token protocol now
      let tail := runRequests settings token protocol now step.2 rest
      (step.1 :: tail.1, tail.2)

/-- Re-evaluate one fixed `(stream, address, token)` triple at each time in
`times`, in order. -/
def runRechecks (settings : Settings) (stream_name client_ip token protocol : String) :
    DB → List Int → List (Bool × Option String × Option Token) × DB
  | db, [] => ([], db)
  | db, n :: rest =>
      let step := ValidationService.validate_authorization settings db stream_name client_ip token
        protocol n
      let tail := runRechecks settings stream_name client_ip token protocol step.2 rest
      (step.1 :: tail.1, tail.2)



/-- The rows a run of fresh admissions inserts: one `create_session` row per
request, ids continuing from `base` (the autoincrement model). -/
def mkNewSessions (t : Token) (token protocol : String) (dur now : Int) :
    Nat → List (String × String) → List ActiveSession
  | _, [] => []
  | base, r :: rest =>
      { id := base, session_id := generate_session_id r.1 r.2 token, token_id := t.id,
        user_id := t.user_id, stream_name := r.1, client_ip := r.2, protocol := protocol,
        started_at := now, last_checked_at := now, expires_at := some (now + dur) } ::
      mkNewSessions t token protocol dur now (base + 1) rest

/-- The audit row a fresh admission appends for one request. -/
def mkNewLog (t : Token) (token protocol : String) (r : String × String) : AccessLog :=
  { token := token, user_id := some t.user_id, stream_name := r.1, client_ip := r.2,
    protocol := protocol, result := "allowed", reason := "new_session" }

/-! ### Concrete fixtures used by witnesses and counterexamples -/

/-- Default configuration: 180-second auth duration, audit logging on. -/
def wSettings : Settings := { AUTH_DURATION := 180, ENABLE_ACCESS_LOGS := true }

/-- Token-row builder for concrete scenarios. -/
def mkToken (id : Nat) (token user status : String) (max_sessions : Nat)
    (valid_from : Int) (valid_until : Option Int)
    (allowed_ips allowed_streams : Option (List String)) : Token :=
  { id := id, token := token, user_id := user, status := status,
    max_sessions := max_sessions, valid_from := valid_from, valid_until := valid_until,
    allowed_ips := allowed_ips, allowed_streams := allowed_streams,
    meta := none, created_at := 0, updated_at := 0 }

/-- Session-row builder for concrete scenarios. -/
def mkSession (id : Nat) (session_id : String) (user : String) (expires_at : Option Int) :
    ActiveSession :=
  { id := id, session_id := session_id, token_id := 1, user_id := user,
    stream_name := "s", client_ip := "a", protocol := "hls",
    started_at := 0, last_checked_at := 0, expires_at := expires_at }

/-! ## Shape lemmas: one per branch of `validate_authorization` -/

namespace ValidationService

theorem log_access_tokens (settings : Settings) (db : DB) (token : String)
    (user_id : Option String) (stream_name client_ip protocol result reason : String) :
    (_log_access settings db token user_id stream_name client_ip protocol result reason).tokens =
      db.tokens := by
  unfold _log_access; split <;> rfl

theorem log_access_sessions (settings : Settings) (db : DB) (token : String)
    (user_id : Option String) (stream_name client_ip protocol result reason : String) :
    (_log_access settings db token user_id stream_name client_ip protocol result reason).sessions =
      db.sessions := by
  unfold _log_access; split <;> rfl

theorem log_access_logs_enabled (settings : Settings) (db : DB) (token : String)
    (user_id : Option String) (stream_name client_ip protocol result reason : String)
    (h : settings.ENABLE_ACCESS_LOGS = true) :
    (_log_access settings db token user_id stream_name client_ip protocol result reason).logs =
      db.logs ++ [{ token := token, user_id := user_id, stream_name := stream_name,
                    client_ip := client_ip, protocol := protocol, result := result,
                    reason := reason }] := by
  simp [_log_access, h]

theorem log_access_logs_disabled (settings : Settings) (db : DB) (token : String)
    (user_id : Option String) (stream_name client_ip protocol result reason : String)
    (h : settings.ENABLE_ACCESS_LOGS = false) :
    (_log_access settings db token user_id stream_name client_ip protocol result reason).logs =
      db.logs := by
  simp [_log_access, h]

section Shape

variable (settings : Settings) (db : DB) (stream_name client_ip token protocol : String)
variable (now : Int) (t : Token)

theorem validate_not_found (h : TokenService.get_by_token db token = none) :
    validate_authorization settings db stream_name client_ip token protocol now =
      ((false, some "token_not_found", none),
       _log_access settings db token none stream_name client_ip protocol
         "denied" "token_not_found") := by
  unfold validate_authorization
  rw [h]

theorem validate_suspended (hfind : TokenService.get_by_token db token = some t)
    (h : t.status = "suspended") :
    validate_authorization settings db stream_name client_ip token protocol now =
      ((false, some "token_suspended", some t),
       _log_access settings db token (some t.user_id) stream_name client_ip protocol
         "denied" "token_suspended") := by
  unfold validate_authorization
  rw [hfind]
  simp [h]

theorem validate_status_expired (hfind : TokenService.get_by_token db token = some t)
    (h1 : t.status ≠ "suspended") (h2 : t.status = "expired") :
    validate_authorization settings db stream_name client_ip token protocol now =
      ((false, some "token_expired", some t),
       _log_access settings db token (some t.user_id) stream_name client_ip protocol
         "denied" "token_expired") := by
  unfold validate_authorization
  rw [hfind]
  simp [h1, h2]

theorem validate_not_yet_valid (hfind : TokenService.get_by_token db token = some t)
    (h1 : t.status ≠ "suspended") (h2 : t.status ≠ "expired") (h3 : now < t.valid_from) :
    validate_authorization settings db stream_name client_ip token protocol now =
      ((false, some "token_not_yet_valid", some t),
       _log_access settings db token (some t.user_id) stream_name client_ip protocol
         "denied" "token_not_yet_valid") := by
  unfold validate_authorization
  rw [hfind]
  simp [h1, h2, h3]

theorem validate_lazy_expire (hfind : TokenService.get_by_token db token = some t)
    (h1 : t.status ≠ "suspended") (h2 : t.status ≠ "expired") (h3 : ¬ now < t.valid_from)
    (h4 : t.pastValidUntil now = true) :
    validate_authorization settings db stream_name client_ip token protocol now =
      ((false, some "token_expired", some { t with status := "expired", updated_at := now }),
       _log_access settings (TokenService.update_token_status db t.id "expired" now) token
         (some t.user_id) stream_name client_ip protocol "denied" "token_expired") := by
  unfold validate_authorization
  rw [hfind]
  simp [h1, h2, h3, h4]

theorem validate_ip_denied (hfind : TokenService.get_by_token db token = some t)
    (h1 : t.status ≠ "suspended") (h2 : t.status ≠ "expired") (h3 : ¬ now < t.valid_from)
    (h4 : t.pastValidUntil now = false) (h5 : t.ipDenies client_ip = true) :
    validate_authorization settings db stream_name client_ip token protocol now =
      ((false, some "ip_not_allowed", some t),
       _log_access settings db token (some t.user_id) stream_name client_ip protocol
         "denied" "ip_not_allowed") := by
  unfold validate_authorization
  rw [hfind]
  simp [h1, h2, h3, h4, h5]

theorem validate_stream_denied (hfind : TokenService.get_by_token db token = some t)
    (h1 : t.status ≠ "suspended") (h2 : t.status ≠ "expired") (h3 : ¬ now < t.valid_from)
    (h4 : t.pastValidUntil now = false) (h5 : t.ipDenies client_ip = false)
    (h6 : t.streamDenies stream_name = true) :
    validate_authorization settings db stream_name client_ip token protocol now =
      ((false, some "stream_not_allowed", some t),
       _log_access settings db token (some t.user_id) stream_name client_ip protocol
         "denied" "stream_not_allowed") := by
  unfold validate_authorization
  rw [hfind]
  simp [h1, h2, h3, h4, h5, h6]

theorem validate_recheck (hfind : TokenService.get_by_token db token = some t)
    (h1 : t.status ≠ "suspended") (h2 : t.status ≠ "expired") (h3 : ¬ now < t.valid_from)
    (h4 : t.pastValidUntil now = false) (h5 : t.ipDenies client_ip = false)
    (h6 : t.streamDenies stream_name = false) (s : ActiveSession)
    (h7 : SessionService.get_by_session_id db (generate_session_id stream_name client_ip token)
            = some s) :
    validate_authorization settings db stream_name client_ip token protocol now =
      ((true, none, some t),
       _log_access settings
         (SessionService.update_session_last_check db
            (generate_session_id stream_name client_ip token) settings.AUTH_DURATION now)
         token (some t.user_id) stream_name client_ip protocol "allowed" "session_recheck") := by
  unfold validate_authorization
  rw [hfind]
  simp [h1, h2, h3, h4, h5, h6, h7]

theorem validate_limit_reached (hfind : TokenService.get_by_token db token = some t)
    (h1 : t.status ≠ "suspended") (h2 : t.status ≠ "expired") (h3 : ¬ now < t.valid_from)
    (h4 : t.pastValidUntil now = false) (h5 : t.ipDenies client_ip = false)
    (h6 : t.streamDenies stream_name = false)
    (h7 : SessionService.get_by_session_id db (generate_session_id stream_name client_ip token)
            = none)
    (h8 : t.max_sessions ≤ SessionService.count_active_sessions_by_user db t.user_id now
            (some (generate_session_id stream_name client_ip token))) :
    validate_authorization settings db stream_name client_ip token protocol now =
      ((false, some "max_sessions_reached", some t),
       _log_access settings db token (some t.user_id) stream_name client_ip protocol "denied"
         ("max_sessions_reached (" ++
          toString (SessionService.count_active_sessions_by_user db t.user_id now
            (some (generate_session_id stream_name client_ip token))) ++ "/" ++
          toString t.max_sessions ++ ")")) := by
  unfold validate_authorization
  rw [hfind]
  simp [h1, h2, h3, h4, h5, h6, h7, h8]

theorem validate_new_session (hfind : TokenService.get_by_token db token = some t)
    (h1 : t.status ≠ "suspended") (h2 : t.status ≠ "expired") (h3 : ¬ now < t.valid_from)
    (h4 : t.pastValidUntil now = false) (h5 : t.ipDenies client_ip = false)
    (h6 : t.streamDenies stream_name = false)
    (h7 : SessionService.get_by_session_id db (generate_session_id stream_name client_ip token)
            = none)
    (h8 : SessionService.count_active_sessions_by_user db t.user_id now
            (some (generate_session_id stream_name client_ip token)) < t.max_sessions) :
    validate_authorization settings db stream_name client_ip token protocol now =
      ((true, none, some t),
       _log_access settings
         (SessionService.create_session db (generate_session_id stream_name client_ip token)
            t.id t.user_id stream_name client_ip protocol settings.AUTH_DURATION now)
         token (some t.user_id) stream_name client_ip protocol "allowed" "new_session") := by
  unfold validate_authorization
  rw [hfind]
  simp [h1, h2, h3, h4, h5, h6, h7, Nat.not_le.mpr h8]

end Shape

end ValidationService

/-! ## Generic store lemmas -/

theorem find?_map_comm {α : Type} (f : α → α) (p : α → Bool) (hf : ∀ a, p (f a) = p a) :
    ∀ l : List α, (l.map f).find? p = (l.find? p).map f
  | [] => rfl
  | a :: l => by
      cases h : p a with
      | true => simp [List.find?, hf a, h]
      | false => simp [List.find?, hf a, h, find?_map_comm f p hf l]

theorem get_by_token_tokens_eq (db db' : DB) (token : String) (h : db'.tokens = db.tokens) :
    TokenService.get_by_token db' token = TokenService.get_by_token db token := by
  unfold TokenService.get_by_token
  rw [h]

theorem get_by_session_id_sessions_eq (db db' : DB) (sid : String)
    (h : db'.sessions = db.sessions) :
    SessionService.get_by_session_id db' sid = SessionService.get_by_session_id db sid := by
  unfold SessionService.get_by_session_id
  rw [h]

theorem countQuery_append (l1 l2 : List ActiveSession) (u : String) (now : Int)
    (ex : Option String) :
    SessionService.countQuery (l1 ++ l2) u now ex =
      SessionService.countQuery l1 u now ex + SessionService.countQuery l2 u now ex := by
  unfold SessionService.countQuery
  cases ex with
  | none => simp [List.filter_append]
  | some e =>
      by_cases h : e = ""
      · simp [h, List.filter_append]
      · simp [h, List.filter_append]

theorem countQuery_exclude_le (l : List ActiveSession) (u : String) (now : Int)
    (ex : Option String) :
    SessionService.countQuery l u now ex ≤ SessionService.countQuery l u now none := by
  unfold SessionService.countQuery
  cases ex with
  | none => exact le_refl _
  | some e =>
      by_cases h : e = ""
      · simp [h]
      · simp only [beq_iff_eq, if_neg h]
        exact List.length_filter_le _ _

theorem countQuery_exclude_absent (l : List ActiveSession) (u : String) (now : Int)
    (ex : String) (hex : ∀ s ∈ l, s.session_id ≠ ex) :
    SessionService.countQuery l u now (some ex) = SessionService.countQuery l u now none := by
  unfold SessionService.countQuery
  by_cases h : ex = ""
  · simp [h]
  · simp only [h]
    have : ∀ s ∈ l.filter (fun s => s.user_id == u && SessionService.sessionActive now s),
        (s.session_id != ex) = true := by
      intro s hs
      have := hex s (List.mem_of_mem_filter hs)
      simpa using this
    simp [List.filter_eq_self.mpr this, h]

/-! ## C8: the fingerprint is a pure, fixed-length hex function -/

theorem hexDigit_mem_hex (n : Nat) (h : n < 16) :
    SHA256.hexDigit n ∈ "0123456789abcdef".data := by
  interval_cases n <;> decide

theorem wordHex_mem_hex (w : Nat) : ∀ c ∈ SHA256.wordHex w, c ∈ "0123456789abcdef".data := by
  intro c hc
  have hlt : ∀ k : Nat, (w >>> k) &&& 15 < 16 := fun k => Nat.lt_succ_of_le Nat.and_le_right
  have hlt0 : w &&& 15 < 16 := Nat.lt_succ_of_le Nat.and_le_right
  simp only [SHA256.wordHex, List.mem_cons, List.not_mem_nil, or_false] at hc
  rcases hc with h | h | h | h | h | h | h | h <;> subst h <;>
    first
      | exact hexDigit_mem_hex _ (hlt _)
      | exact hexDigit_mem_hex _ hlt0

theorem hexDigest_length (h : SHA256.Hash) : (SHA256.hexDigest h).length = 64 := rfl

theorem hexDigest_chars (h : SHA256.Hash) :
    ∀ c ∈ (SHA256.hexDigest h).data, c ∈ "0123456789abcdef".data := by
  intro c hc
  simp only [SHA256.hexDigest, String.data, List.mem_append] at hc
  rcases hc with ((((((h' | h') | h') | h') | h') | h') | h') | h' <;>
    exact wordHex_mem_hex _ _ h'

/-- Claim C8: the session fingerprint is a pure, deterministic function of the
triple (stream name, client address, token string): two calls with identical
inputs agree, and the result is always a 64-character lowercase-hex digest of
the 256-bit hash. -/
theorem fingerprint_pure_and_fixed_length (s a t : String) :
    generate_session_id s a t = generate_session_id s a t ∧
    (generate_session_id s a t).length = 64 ∧
    ∀ c ∈ (generate_session_id s a t).data, c ∈ "0123456789abcdef".data :=
  ⟨rfl, hexDigest_length _, hexDigest_chars _⟩

/-! ## C9: delimiter-free concatenation makes distinct triples collide -/

/-- Claim C9: the fingerprint hashes the bare concatenation
`stream_name + client_ip + token`, so any two triples with equal
concatenations collide; in particular `("ab","c","tok")` and
`("a","bc","tok")` are distinct triples with the same fingerprint, and after
admitting the first triple (a `new_session` under `max_sessions = 1`), the
engine treats the second triple as the *same* session and admits it as a
`session_recheck`. -/
theorem fingerprint_concatenation_collision :
    (∀ s1 a1 t1 s2 a2 t2 : String, s1 ++ a1 ++ t1 = s2 ++ a2 ++ t2 →
      generate_session_id s1 a1 t1 = generate_session_id s2 a2 t2) ∧
    ((("ab" : String), ("c" : String), ("tok" : String)) ≠ ("a", "bc", "tok") ∧
      generate_session_id "ab" "c" "tok" = generate_session_id "a" "bc" "tok") ∧
    ((ValidationService.validate_authorization wSettings
        { tokens := [mkToken 1 "tok" "u1" "active" 1 (-100) none none none],
          sessions := [], logs := [] } "ab" "c" "tok" "hls" 0).1
        = (true, none, some (mkToken 1 "tok" "u1" "active" 1 (-100) none none none)) ∧
     (ValidationService.validate_authorization wSettings
        (ValidationService.validate_authorization wSettings
          { tokens := [mkToken 1 "tok" "u1" "active" 1 (-100) none none none],
            sessions := [], logs := [] } "ab" "c" "tok" "hls" 0).2
        "a" "bc" "tok" "hls" 0).1
        = (true, none, some (mkToken 1 "tok" "u1" "active" 1 (-100) none none none)) ∧
     (ValidationService.validate_authorization wSettings
        (ValidationService.validate_authorization wSettings
          { tokens := [mkToken 1 "tok" "u1" "active" 1 (-100) none none none],
            sessions := [], logs := [] } "ab" "c" "tok" "hls" 0).2
        "a" "bc" "tok" "hls" 0).2.logs.map (fun e => e.reason)
        = ["new_session", "session_recheck"]) := by
  refine ⟨?_, ⟨by decide, ?_⟩, ?_, ?_, ?_⟩
  · intro s1 a1 t1 s2 a2 t2 h
    unfold generate_session_id
    rw [h]
  · unfold generate_session_id
    rw [show ("ab" ++ "c" ++ "tok" : String) = "a" ++ "bc" ++ "tok" from rfl]
  · decide
  · decide
  · decide

/-- Witness for the hypothesis-bearing conjunct of the collision theorem:
the general concatenation law applied at the concrete colliding pair. -/
theorem fingerprint_concatenation_collision_witness :
    generate_session_id "ab" "c" "tok" = generate_session_id "a" "bc" "tok" :=
  fingerprint_concatenation_collision.1 "ab" "c" "tok" "a" "bc" "tok" rfl

/-! ## C7: empty inputs are not rejected before evaluation -/

/-- Claim C7 (code divergence): with empty stream name, empty client address
and empty token, the engine still begins evaluation — it performs the token
lookup, writes an access-log entry, and returns the `token_not_found` denial
from the ordinary authorization taxonomy.  Nothing in `routes.authorize` or
`validate_authorization` rejects empty required inputs beforehand. -/
theorem empty_inputs_reach_evaluation :
    (ValidationService.validate_authorization wSettings
      { tokens := [], sessions := [], logs := [] } "" "" "" "unknown" 0).1
      = (false, some "token_not_found", none) ∧
    (ValidationService.validate_authorization wSettings
      { tokens := [], sessions := [], logs := [] } "" "" "" "unknown" 0).2.logs.map
        (fun e => e.reason) = ["token_not_found"] ∧
    "token_not_found" ∈ reasonTaxonomy := by
  refine ⟨by decide, by decide, by decide⟩

/-! ## C5: the expiry sweeper -/

/-- Claim C5: one sweep pass deletes exactly the sessions whose expiry is in
the past, returns their count, and leaves every other session (and the other
tables) unchanged; an immediately repeated pass deletes nothing and returns 0.
Concretely, with sessions expiring at T−10, T−1 and T+10 and now = T, one
pass removes the first two and returns 2, the repeat returns 0. -/
theorem sweeper_deletes_exactly_expired (db : DB) (now : Int) :
    (SessionService.cleanup_expired_sessions db now).1 =
      (db.sessions.filter (SessionService.sessionExpired now)).length ∧
    (SessionService.cleanup_expired_sessions db now).2.sessions =
      db.sessions.filter (fun s => !SessionService.sessionExpired now s) ∧
    (SessionService.cleanup_expired_sessions db now).2.tokens = db.tokens ∧
    (SessionService.cleanup_expired_sessions db now).2.logs = db.logs ∧
    (∀ s ∈ db.sessions, SessionService.sessionExpired now s = false →
      s ∈ (SessionService.cleanup_expired_sessions db now).2.sessions) ∧
    (∀ s ∈ (SessionService.cleanup_expired_sessions db now).2.sessions,
      SessionService.sessionExpired now s = false ∧ s ∈ db.sessions) ∧
    (SessionService.cleanup_expired_sessions
      (SessionService.cleanup_expired_sessions db now).2 now).1 = 0 ∧
    (SessionService.cleanup_expired_sessions
      (SessionService.cleanup_expired_sessions db now).2 now).2 =
      (SessionService.cleanup_expired_sessions db now).2 ∧
    ((SessionService.cleanup_expired_sessions
        { tokens := [], logs := [],
          sessions := [mkSession 0 "x" "u" (some (now - 10)), mkSession 1 "y" "u" (some (now - 1)),
                       mkSession 2 "z" "u" (some (now + 10))] } now).1 = 2 ∧
     (SessionService.cleanup_expired_sessions
        { tokens := [], logs := [],
          sessions := [mkSession 0 "x" "u" (some (now - 10)), mkSession 1 "y" "u" (some (now - 1)),
                       mkSession 2 "z" "u" (some (now + 10))] } now).2.sessions =
        [mkSession 2 "z" "u" (some (now + 10))]) := by
  have hmem : ∀ s ∈ db.sessions, SessionService.sessionExpired now s = false →
      s ∈ (SessionService.cleanup_expired_sessions db now).2.sessions := by
    intro s hs hexp
    simp [SessionService.cleanup_expired_sessions, List.mem_filter, hs, hexp]
  have hmem' : ∀ s ∈ (SessionService.cleanup_expired_sessions db now).2.sessions,
      SessionService.sessionExpired now s = false ∧ s ∈ db.sessions := by
    intro s hs
    simp only [SessionService.cleanup_expired_sessions, List.mem_filter,
      Bool.not_eq_true'] at hs
    exact ⟨hs.2, hs.1⟩
  have hnil : ((SessionService.cleanup_expired_sessions db now).2.sessions.filter
      (SessionService.sessionExpired now)) = [] := by
    rw [List.filter_eq_nil_iff]
    intro s hs
    simp [(hmem' s hs).1]
  have hself : (SessionService.cleanup_expired_sessions db now).2.sessions.filter
      (fun s => !SessionService.sessionExpired now s) =
      (SessionService.cleanup_expired_sessions db now).2.sessions :=
    List.filter_eq_self.mpr (fun s hs => by simp [(hmem' s hs).1])
  have h1 : SessionService.sessionExpired now (mkSession 0 "x" "u" (some (now - 10))) = true := by
    simp [SessionService.sessionExpired, mkSession]
  have h2 : SessionService.sessionExpired now (mkSession 1 "y" "u" (some (now - 1))) = true := by
    simp [SessionService.sessionExpired, mkSession]
  have h3 : SessionService.sessionExpired now (mkSession 2 "z" "u" (some (now + 10))) = false := by
    simp [SessionService.sessionExpired, mkSession]
  refine ⟨rfl, rfl, rfl, rfl, hmem, hmem', ?_, ?_, ?_, ?_⟩
  · show ((SessionService.cleanup_expired_sessions db now).2.sessions.filter
      (SessionService.sessionExpired now)).length = 0
    rw [hnil]
    rfl
  · show ({ (SessionService.cleanup_expired_sessions db now).2 with
        sessions := (SessionService.cleanup_expired_sessions db now).2.sessions.filter
          (fun s => !SessionService.sessionExpired now s) } : DB) =
      (SessionService.cleanup_expired_sessions db now).2
    rw [hself]
  · show (List.filter _ _).length = 2
    simp [List.filter, h1, h2, h3]
  · show List.filter _ _ = _
    simp [List.filter, h1, h2, h3]

/-- Witness: the sweeper theorem applied at a concrete store and time,
discharging its membership hypotheses — the surviving session is exactly the
unexpired one. -/
theorem sweeper_deletes_exactly_expired_witness :
    mkSession 2 "z" "u" (some 10) ∈
      (SessionService.cleanup_expired_sessions
        { tokens := [], logs := [],
          sessions := [mkSession 0 "x" "u" (some (-10)), mkSession 1 "y" "u" (some (-1)),
                       mkSession 2 "z" "u" (some 10)] } 0).2.sessions :=
  (sweeper_deletes_exactly_expired
    { tokens := [], logs := [],
      sessions := [mkSession 0 "x" "u" (some (-10)), mkSession 1 "y" "u" (some (-1)),
                   mkSession 2 "z" "u" (some 10)] } 0).2.2.2.2.1
    (mkSession 2 "z" "u" (some 10)) (by decide) (by decide)

/-! ## C4: lazy expiry -/

theorem update_token_status_sessions (db : DB) (tid : Nat) (st : String) (now : Int) :
    (TokenService.update_token_status db tid st now).sessions = db.sessions := by
  unfold TokenService.update_token_status
  split <;> rfl

theorem update_token_status_logs (db : DB) (tid : Nat) (st : String) (now : Int) :
    (TokenService.update_token_status db tid st now).logs = db.logs := by
  unfold TokenService.update_token_status
  split <;> rfl

theorem update_token_status_tokens_of_found (db : DB) (tid : Nat) (st : String) (now : Int)
    (h : (TokenService.get_by_id db tid).isSome = true) :
    (TokenService.update_token_status db tid st now).tokens =
      db.tokens.map fun u =>
        if u.id == tid then { u with status := st, updated_at := now } else u := by
  unfold TokenService.update_token_status
  rw [if_pos h]

theorem get_by_id_isSome_of_get_by_token (db : DB) (token : String) (t : Token)
    (hfind : TokenService.get_by_token db token = some t) :
    (TokenService.get_by_id db t.id).isSome = true := by
  have hmem : t ∈ db.tokens := List.mem_of_find?_eq_some hfind
  unfold TokenService.get_by_id
  rw [List.find?_isSome]
  exact ⟨t, hmem, by simp⟩

/-- Counterexample to claim C4 as stated: a token whose `valid_until` is in
the past but whose status is `suspended` is denied `token_suspended`, not
`token_expired`, and its stored status remains `suspended` after the
evaluation — the status check precedes the temporal check. -/
theorem lazy_expiry_claim_fails_for_suspended :
    (mkToken 1 "tok" "u1" "suspended" 1 (-100) (some (-5)) none none).valid_until
      = some (-5) ∧ ((-5 : Int) < 0) ∧
    (ValidationService.validate_authorization wSettings
      { tokens := [mkToken 1 "tok" "u1" "suspended" 1 (-100) (some (-5)) none none],
        sessions := [], logs := [] } "s" "a" "tok" "hls" 0).1.2.1
      = some "token_suspended" ∧
    some "token_suspended" ≠ some "token_expired" ∧
    (TokenService.get_by_token
      (ValidationService.validate_authorization wSettings
        { tokens := [mkToken 1 "tok" "u1" "suspended" 1 (-100) (some (-5)) none none],
          sessions := [], logs := [] } "s" "a" "tok" "hls" 0).2 "tok").map Token.status
      = some "suspended" := by
  refine ⟨rfl, by decide, by decide, by decide, by decide⟩

/-- Claim C4 (amended): for every stored token that passes the status and
`valid_from` checks (status neither `suspended` nor — for the write part —
already recorded otherwise) and whose `valid_until` is set and in the past,
evaluation denies `token_expired` and a subsequent direct read of the token
shows status `expired` (persisted by the lazy transition when the status was
not already `expired`); the session table is untouched. -/
theorem lazy_expiry_persists_expired (settings : Settings) (db : DB)
    (stream_name client_ip token protocol : String) (now : Int) (t : Token) (vu : Int)
    (hfind : TokenService.get_by_token db token = some t)
    (h1 : t.status ≠ "suspended")
    (h3 : ¬ now < t.valid_from)
    (h4 : t.valid_until = some vu) (h5 : vu < now) :
    (ValidationService.validate_authorization settings db stream_name client_ip token protocol
      now).1.1 = false ∧
    (ValidationService.validate_authorization settings db stream_name client_ip token protocol
      now).1.2.1 = some "token_expired" ∧
    (TokenService.get_by_token
      (ValidationService.validate_authorization settings db stream_name client_ip token protocol
        now).2 token).map Token.status = some "expired" ∧
    (ValidationService.validate_authorization settings db stream_name client_ip token protocol
      now).2.sessions = db.sessions := by
  by_cases h2 : t.status = "expired"
  · rw [ValidationService.validate_status_expired settings db stream_name client_ip token
      protocol now t hfind h1 h2]
    refine ⟨rfl, rfl, ?_, ?_⟩
    · rw [get_by_token_tokens_eq _ _ _
        (ValidationService.log_access_tokens settings db token (some t.user_id) stream_name
          client_ip protocol "denied" "token_expired")]
      rw [hfind]
      simp [h2]
    · exact ValidationService.log_access_sessions settings db token (some t.user_id) stream_name
        client_ip protocol "denied" "token_expired"
  · have h4' : t.pastValidUntil now = true := by
      simp [Token.pastValidUntil, h4]
      omega
    rw [ValidationService.validate_lazy_expire settings db stream_name client_ip token protocol
      now t hfind h1 h2 h3 h4']
    have hupd := update_token_status_tokens_of_found db t.id "expired" now
      (get_by_id_isSome_of_get_by_token db token t hfind)
    refine ⟨rfl, rfl, ?_, ?_⟩
    · rw [get_by_token_tokens_eq _ _ _
        (ValidationService.log_access_tokens settings _ token (some t.user_id) stream_name
          client_ip protocol "denied" "token_expired")]
      unfold TokenService.get_by_token
      rw [hupd, find?_map_comm _ _ ?hp db.tokens]
      case hp =>
        intro a
        by_cases hid : (a.id == t.id) = true <;> simp [hid]
      have : db.tokens.find? (fun u => u.token == token) = some t := hfind
      rw [this]
      simp
    · rw [ValidationService.log_access_sessions, update_token_status_sessions]

/-- Witness: the amended lazy-expiry theorem at a concrete active token with
`valid_until` = −5 evaluated at time 0. -/
theorem lazy_expiry_persists_expired_witness :
    (ValidationService.validate_authorization wSettings
      { tokens := [mkToken 1 "tok" "u1" "active" 1 (-100) (some (-5)) none none],
        sessions := [], logs := [] } "s" "a" "tok" "hls" 0).1.1 = false ∧
    (ValidationService.validate_authorization wSettings
      { tokens := [mkToken 1 "tok" "u1" "active" 1 (-100) (some (-5)) none none],
        sessions := [], logs := [] } "s" "a" "tok" "hls" 0).1.2.1 = some "token_expired" ∧
    (TokenService.get_by_token
      (ValidationService.validate_authorization wSettings
        { tokens := [mkToken 1 "tok" "u1" "active" 1 (-100) (some (-5)) none none],
          sessions := [], logs := [] } "s" "a" "tok" "hls" 0).2 "tok").map Token.status
      = some "expired" ∧
    (ValidationService.validate_authorization wSettings
      { tokens := [mkToken 1 "tok" "u1" "active" 1 (-100) (some (-5)) none none],
        sessions := [], logs := [] } "s" "a" "tok" "hls" 0).2.sessions = [] :=
  lazy_expiry_persists_expired wSettings
    { tokens := [mkToken 1 "tok" "u1" "active" 1 (-100) (some (-5)) none none],
      sessions := [], logs := [] } "s" "a" "tok" "hls" 0
    (mkToken 1 "tok" "u1" "active" 1 (-100) (some (-5)) none none) (-5)
    (by decide) (by decide) (by decide) rfl (by decide)

/-! ## C10: denials do not mutate the session store, nor the token store
except for the lazy-expiry write -/

theorem create_session_tokens (db : DB) (sid : String) (tid : Nat)
    (u sn ip proto : String) (dur now : Int) :
    (SessionService.create_session db sid tid u sn ip proto dur now).tokens = db.tokens := rfl

theorem create_session_logs (db : DB) (sid : String) (tid : Nat)
    (u sn ip proto : String) (dur now : Int) :
    (SessionService.create_session db sid tid u sn ip proto dur now).logs = db.logs := rfl

theorem create_session_sessions (db : DB) (sid : String) (tid : Nat)
    (u sn ip proto : String) (dur now : Int) :
    (SessionService.create_session db sid tid u sn ip proto dur now).sessions =
      db.sessions ++
        [{ id := db.sessions.length, session_id := sid, token_id := tid, user_id := u,
           stream_name := sn, client_ip := ip, protocol := proto,
           started_at := now, last_checked_at := now, expires_at := some (now + dur) }] := rfl

theorem update_session_last_check_tokens (db : DB) (sid : String) (dur now : Int) :
    (SessionService.update_session_last_check db sid dur now).tokens = db.tokens := by
  unfold SessionService.update_session_last_check
  split <;> rfl

theorem update_session_last_check_logs (db : DB) (sid : String) (dur now : Int) :
    (SessionService.update_session_last_check db sid dur now).logs = db.logs := by
  unfold SessionService.update_session_last_check
  split <;> rfl

/-- Claim C10: every denied evaluation leaves the session table unchanged,
and leaves the token table unchanged as well, except that a `token_expired`
denial may come from the lazy-expiry branch, in which case exactly the
evaluated token's `status` and `updated_at` fields are rewritten. -/
theorem denial_leaves_stores_unchanged (settings : Settings) (db : DB)
    (stream_name client_ip token protocol : String) (now : Int) (reason : String)
    (hden : (ValidationService.validate_authorization settings db stream_name client_ip token
      protocol now).1.1 = false)
    (hreason : (ValidationService.validate_authorization settings db stream_name client_ip token
      protocol now).1.2.1 = some reason) :
    (ValidationService.validate_authorization settings db stream_name client_ip token protocol
      now).2.sessions = db.sessions ∧
    ((ValidationService.validate_authorization settings db stream_name client_ip token protocol
        now).2.tokens = db.tokens ∨
      (reason = "token_expired" ∧ ∃ t, TokenService.get_by_token db token = some t ∧
        (ValidationService.validate_authorization settings db stream_name client_ip token
          protocol now).2.tokens = db.tokens.map fun u =>
            if u.id == t.id then { u with status := "expired", updated_at := now } else u)) := by
  cases hfind : TokenService.get_by_token db token with
  | none =>
      rw [ValidationService.validate_not_found settings db stream_name client_ip token protocol
        now hfind]
      exact ⟨ValidationService.log_access_sessions _ _ _ _ _ _ _ _ _,
        Or.inl (ValidationService.log_access_tokens _ _ _ _ _ _ _ _ _)⟩
  | some t =>
      by_cases h1 : t.status = "suspended"
      · rw [ValidationService.validate_suspended settings db stream_name client_ip token protocol
          now t hfind h1]
        exact ⟨ValidationService.log_access_sessions _ _ _ _ _ _ _ _ _,
          Or.inl (ValidationService.log_access_tokens _ _ _ _ _ _ _ _ _)⟩
      · by_cases h2 : t.status = "expired"
        · rw [ValidationService.validate_status_expired settings db stream_name client_ip token
            protocol now t hfind h1 h2]
          exact ⟨ValidationService.log_access_sessions _ _ _ _ _ _ _ _ _,
            Or.inl (ValidationService.log_access_tokens _ _ _ _ _ _ _ _ _)⟩
        · by_cases h3 : now < t.valid_from
          · rw [ValidationService.validate_not_yet_valid settings db stream_name client_ip token
              protocol now t hfind h1 h2 h3]
            exact ⟨ValidationService.log_access_sessions _ _ _ _ _ _ _ _ _,
              Or.inl (ValidationService.log_access_tokens _ _ _ _ _ _ _ _ _)⟩
          · by_cases h4 : t.pastValidUntil now = true
            · rw [ValidationService.validate_lazy_expire settings db stream_name client_ip token
                protocol now t hfind h1 h2 h3 h4] at hreason ⊢
              have hr : reason = "token_expired" := (Option.some.inj hreason).symm
              refine ⟨?_, Or.inr ⟨hr, t, rfl, ?_⟩⟩
              · rw [ValidationService.log_access_sessions, update_token_status_sessions]
              · rw [ValidationService.log_access_tokens, update_token_status_tokens_of_found db
                  t.id "expired" now (get_by_id_isSome_of_get_by_token db token t hfind)]
            · have h4' : t.pastValidUntil now = false := by
                exact Bool.not_eq_true _ ▸ eq_false_of_ne_true h4
              by_cases h5 : t.ipDenies client_ip = true
              · rw [ValidationService.validate_ip_denied settings db stream_name client_ip token
                  protocol now t hfind h1 h2 h3 h4' h5]
                exact ⟨ValidationService.log_access_sessions _ _ _ _ _ _ _ _ _,
                  Or.inl (ValidationService.log_access_tokens _ _ _ _ _ _ _ _ _)⟩
              · have h5' : t.ipDenies client_ip = false := eq_false_of_ne_true h5
                by_cases h6 : t.streamDenies stream_name = true
                · rw [ValidationService.validate_stream_denied settings db stream_name client_ip
                    token protocol now t hfind h1 h2 h3 h4' h5' h6]
                  exact ⟨ValidationService.log_access_sessions _ _ _ _ _ _ _ _ _,
                    Or.inl (ValidationService.log_access_tokens _ _ _ _ _ _ _ _ _)⟩
                · have h6' : t.streamDenies stream_name = false := eq_false_of_ne_true h6
                  cases hsess : SessionService.get_by_session_id db
                      (generate_session_id stream_name client_ip token) with
                  | some s =>
                      rw [ValidationService.validate_recheck settings db stream_name client_ip
                        token protocol now t hfind h1 h2 h3 h4' h5' h6' s hsess] at hden
                      simp at hden
                  | none =>
                      by_cases h8 : t.max_sessions ≤
                          SessionService.count_active_sessions_by_user db t.user_id now
                            (some (generate_session_id stream_name client_ip token))
                      · rw [ValidationService.validate_limit_reached settings db stream_name
                          client_ip token protocol now t hfind h1 h2 h3 h4' h5' h6' hsess h8]
                        exact ⟨ValidationService.log_access_sessions _ _ _ _ _ _ _ _ _,
                          Or.inl (ValidationService.log_access_tokens _ _ _ _ _ _ _ _ _)⟩
                      · rw [ValidationService.validate_new_session settings db stream_name
                          client_ip token protocol now t hfind h1 h2 h3 h4' h5' h6' hsess
                          (Nat.lt_of_not_le h8)] at hden
                        simp at hden

/-- Witness: the denial-purity theorem at a concrete `token_not_found`
denial over an empty store. -/
theorem denial_leaves_stores_unchanged_witness :
    (ValidationService.validate_authorization wSettings
      { tokens := [], sessions := [], logs := [] } "s" "a" "tok" "hls" 0).2.sessions = [] ∧
    ((ValidationService.validate_authorization wSettings
        { tokens := [], sessions := [], logs := [] } "s" "a" "tok" "hls" 0).2.tokens = [] ∨
      ("token_not_found" = "token_expired" ∧ ∃ t,
        TokenService.get_by_token
          { tokens := [], sessions := [], logs := [] } "tok" = some t ∧
        (ValidationService.validate_authorization wSettings
          { tokens := [], sessions := [], logs := [] } "s" "a" "tok" "hls" 0).2.tokens =
          List.map (fun u =>
            if u.id == t.id then { u with status := "expired", updated_at := 0 } else u) [])) :=
  denial_leaves_stores_unchanged wSettings { tokens := [], sessions := [], logs := [] }
    "s" "a" "tok" "hls" 0 "token_not_found" (by decide) (by decide)

/-! ## C6: audit log — one entry per evaluation, reason taxonomy -/

/-- Counterexample to claim C6 as stated: a max-sessions denial writes its
log entry with the counter-bearing reason string
`max_sessions_reached (1/1)`, which is not one of the nine stable taxonomy
strings (the bare `max_sessions_reached` is what the *response* carries, not
the log row). -/
theorem audit_reason_taxonomy_counterexample :
    (ValidationService.validate_authorization wSettings
      { tokens := [mkToken 1 "tok" "u1" "active" 1 (-100) none none none],
        sessions := [mkSession 9 "othersid" "u1" (some 100)], logs := [] }
      "s" "a" "tok" "hls" 0).1.2.1 = some "max_sessions_reached" ∧
    (ValidationService.validate_authorization wSettings
      { tokens := [mkToken 1 "tok" "u1" "active" 1 (-100) none none none],
        sessions := [mkSession 9 "othersid" "u1" (some 100)], logs := [] }
      "s" "a" "tok" "hls" 0).2.logs.map (fun e => e.reason)
      = ["max_sessions_reached (1/1)"] ∧
    "max_sessions_reached (1/1)" ∉ reasonTaxonomy := by
  refine ⟨by decide, by decide, by decide⟩

/-- Claim C6 (amended): every evaluation writes exactly one audit entry when
access logging is enabled and none when it is disabled; the entry's reason is
one of the nine taxonomy strings, except that a max-sessions denial logs the
taxonomy string with a `"(count/max)"` suffix. -/
theorem every_evaluation_logs_once (settings : Settings) (db : DB)
    (stream_name client_ip token protocol : String) (now : Int) :
    (settings.ENABLE_ACCESS_LOGS = true →
      ∃ e : AccessLog,
        (ValidationService.validate_authorization settings db stream_name client_ip token
          protocol now).2.logs = db.logs ++ [e] ∧
        (e.reason ∈ reasonTaxonomy ∨
          ∃ a b : Nat, e.reason =
            "max_sessions_reached (" ++ toString a ++ "/" ++ toString b ++ ")")) ∧
    (settings.ENABLE_ACCESS_LOGS = false →
      (ValidationService.validate_authorization settings db stream_name client_ip token
        protocol now).2.logs = db.logs) := by
  cases hfind : TokenService.get_by_token db token with
  | none =>
      rw [ValidationService.validate_not_found settings db stream_name client_ip token protocol
        now hfind]
      exact ⟨fun hon => ⟨_, ValidationService.log_access_logs_enabled _ _ _ _ _ _ _ _ _ hon,
          Or.inl (by simp [reasonTaxonomy])⟩,
        fun hoff => ValidationService.log_access_logs_disabled _ _ _ _ _ _ _ _ _ hoff⟩
  | some t =>
      by_cases h1 : t.status = "suspended"
      · rw [ValidationService.validate_suspended settings db stream_name client_ip token protocol
          now t hfind h1]
        exact ⟨fun hon => ⟨_, ValidationService.log_access_logs_enabled _ _ _ _ _ _ _ _ _ hon,
            Or.inl (by simp [reasonTaxonomy])⟩,
          fun hoff => ValidationService.log_access_logs_disabled _ _ _ _ _ _ _ _ _ hoff⟩
      · by_cases h2 : t.status = "expired"
        · rw [ValidationService.validate_status_expired settings db stream_name client_ip token
            protocol now t hfind h1 h2]
          exact ⟨fun hon => ⟨_, ValidationService.log_access_logs_enabled _ _ _ _ _ _ _ _ _ hon,
              Or.inl (by simp [reasonTaxonomy])⟩,
            fun hoff => ValidationService.log_access_logs_disabled _ _ _ _ _ _ _ _ _ hoff⟩
        · by_cases h3 : now < t.valid_from
          · rw [ValidationService.validate_not_yet_valid settings db stream_name client_ip token
              protocol now t hfind h1 h2 h3]
            exact ⟨fun hon => ⟨_, ValidationService.log_access_logs_enabled _ _ _ _ _ _ _ _ _ hon,
                Or.inl (by simp [reasonTaxonomy])⟩,
              fun hoff => ValidationService.log_access_logs_disabled _ _ _ _ _ _ _ _ _ hoff⟩
          · by_cases h4 : t.pastValidUntil now = true
            · rw [ValidationService.validate_lazy_expire settings db stream_name client_ip token
                protocol now t hfind h1 h2 h3 h4]
              refine ⟨fun hon =>
                ⟨{ token := token, user_id := some t.user_id, stream_name := stream_name,
                   client_ip := client_ip, protocol := protocol, result := "denied",
                   reason := "token_expired" }, ?_, Or.inl (by simp [reasonTaxonomy])⟩,
                fun hoff => ?_⟩
              · rw [ValidationService.log_access_logs_enabled _ _ _ _ _ _ _ _ _ hon,
                  update_token_status_logs]
              · rw [ValidationService.log_access_logs_disabled _ _ _ _ _ _ _ _ _ hoff,
                  update_token_status_logs]
            · have h4' : t.pastValidUntil now = false := eq_false_of_ne_true h4
              by_cases h5 : t.ipDenies client_ip = true
              · rw [ValidationService.validate_ip_denied settings db stream_name client_ip token
                  protocol now t hfind h1 h2 h3 h4' h5]
                exact ⟨fun hon => ⟨_,
                    ValidationService.log_access_logs_enabled _ _ _ _ _ _ _ _ _ hon,
                    Or.inl (by simp [reasonTaxonomy])⟩,
                  fun hoff => ValidationService.log_access_logs_disabled _ _ _ _ _ _ _ _ _ hoff⟩
              · have h5' : t.ipDenies client_ip = false := eq_false_of_ne_true h5
                by_cases h6 : t.streamDenies stream_name = true
                · rw [ValidationService.validate_stream_denied settings db stream_name client_ip
                    token protocol now t hfind h1 h2 h3 h4' h5' h6]
                  exact ⟨fun hon => ⟨_,
                      ValidationService.log_access_logs_enabled _ _ _ _ _ _ _ _ _ hon,
                      Or.inl (by simp [reasonTaxonomy])⟩,
                    fun hoff => ValidationService.log_access_logs_disabled _ _ _ _ _ _ _ _ _ hoff⟩
                · have h6' : t.streamDenies stream_name = false := eq_false_of_ne_true h6
                  cases hsess : SessionService.get_by_session_id db
                      (generate_session_id stream_name client_ip token) with
                  | some s =>
                      rw [ValidationService.validate_recheck settings db stream_name client_ip
                        token protocol now t hfind h1 h2 h3 h4' h5' h6' s hsess]
                      refine ⟨fun hon =>
                        ⟨{ token := token, user_id := some t.user_id, stream_name := stream_name,
                           client_ip := client_ip, protocol := protocol, result := "allowed",
                           reason := "session_recheck" }, ?_,
                         Or.inl (by simp [reasonTaxonomy])⟩,
                        fun hoff => ?_⟩
                      · rw [ValidationService.log_access_logs_enabled _ _ _ _ _ _ _ _ _ hon,
                          update_session_last_check_logs]
                      · rw [ValidationService.log_access_logs_disabled _ _ _ _ _ _ _ _ _ hoff,
                          update_session_last_check_logs]
                  | none =>
                      by_cases h8 : t.max_sessions ≤
                          SessionService.count_active_sessions_by_user db t.user_id now
                            (some (generate_session_id stream_name client_ip token))
                      · rw [ValidationService.validate_limit_reached settings db stream_name
                          client_ip token protocol now t hfind h1 h2 h3 h4' h5' h6' hsess h8]
                        refine ⟨fun hon => ⟨_,
                            ValidationService.log_access_logs_enabled _ _ _ _ _ _ _ _ _ hon,
                            Or.inr ⟨_, _, rfl⟩⟩,
                          fun hoff =>
                            ValidationService.log_access_logs_disabled _ _ _ _ _ _ _ _ _ hoff⟩
                      · rw [ValidationService.validate_new_session settings db stream_name
                          client_ip token protocol now t hfind h1 h2 h3 h4' h5' h6' hsess
                          (Nat.lt_of_not_le h8)]
                        refine ⟨fun hon =>
                          ⟨{ token := token, user_id := some t.user_id,
                             stream_name := stream_name, client_ip := client_ip,
                             protocol := protocol, result := "allowed",
                             reason := "new_session" }, ?_,
                           Or.inl (by simp [reasonTaxonomy])⟩,
                          fun hoff => ?_⟩
                        · rw [ValidationService.log_access_logs_enabled _ _ _ _ _ _ _ _ _ hon,
                            create_session_logs]
                        · rw [ValidationService.log_access_logs_disabled _ _ _ _ _ _ _ _ _ hoff,
                            create_session_logs]

/-- Witness: the audit theorem at a concrete evaluation with logging enabled
— exactly one entry is appended and its reason is in the allowed shape. -/
theorem every_evaluation_logs_once_witness :
    ∃ e : AccessLog,
      (ValidationService.validate_authorization wSettings
        { tokens := [], sessions := [], logs := [] } "s" "a" "tok" "hls" 0).2.logs
        = [] ++ [e] ∧
      (e.reason ∈ reasonTaxonomy ∨
        ∃ a b : Nat, e.reason =
          "max_sessions_reached (" ++ toString a ++ "/" ++ toString b ++ ")") :=
  (every_evaluation_logs_once wSettings { tokens := [], sessions := [], logs := [] }
    "s" "a" "tok" "hls" 0).1 rfl

/-! ## C1: fixed evaluation order, IP check strictly precedes stream check -/

/-- Claim C1: the checks run in the fixed order token-resolution, status,
temporal validity, IP allow-list, stream allow-list, concurrency admission,
short-circuiting on the first failure with the corresponding reason code; in
particular a token that passes the status and temporal checks and carries a
non-empty IP allow-list without the client address is denied
`ip_not_allowed` no matter what the stream allow-list would have said. -/
theorem evaluation_order_and_ip_precedes_stream (settings : Settings) (db : DB)
    (stream_name client_ip token protocol : String) (now : Int) :
    (TokenService.get_by_token db token = none →
      (ValidationService.validate_authorization settings db stream_name client_ip token protocol
        now).1 = (false, some "token_not_found", none)) ∧
    (∀ t, TokenService.get_by_token db token = some t →
      (t.status = "suspended" →
        (ValidationService.validate_authorization settings db stream_name client_ip token
          protocol now).1 = (false, some "token_suspended", some t)) ∧
      (t.status ≠ "suspended" → t.status = "expired" →
        (ValidationService.validate_authorization settings db stream_name client_ip token
          protocol now).1 = (false, some "token_expired", some t)) ∧
      (t.status ≠ "suspended" → t.status ≠ "expired" → now < t.valid_from →
        (ValidationService.validate_authorization settings db stream_name client_ip token
          protocol now).1 = (false, some "token_not_yet_valid", some t)) ∧
      (t.status ≠ "suspended" → t.status ≠ "expired" → ¬ now < t.valid_from →
        t.pastValidUntil now = true →
        (ValidationService.validate_authorization settings db stream_name client_ip token
          protocol now).1.1 = false ∧
        (ValidationService.validate_authorization settings db stream_name client_ip token
          protocol now).1.2.1 = some "token_expired") ∧
      (∀ l, t.status ≠ "suspended" → t.status ≠ "expired" → ¬ now < t.valid_from →
        t.pastValidUntil now = false → t.get_allowed_ips = some l → l ≠ [] → client_ip ∉ l →
        (ValidationService.validate_authorization settings db stream_name client_ip token
          protocol now).1 = (false, some "ip_not_allowed", some t)) ∧
      (t.status ≠ "suspended" → t.status ≠ "expired" → ¬ now < t.valid_from →
        t.pastValidUntil now = false → t.ipDenies client_ip = false →
        t.streamDenies stream_name = true →
        (ValidationService.validate_authorization settings db stream_name client_ip token
          protocol now).1 = (false, some "stream_not_allowed", some t)) ∧
      (∀ s, t.status ≠ "suspended" → t.status ≠ "expired" → ¬ now < t.valid_from →
        t.pastValidUntil now = false → t.ipDenies client_ip = false →
        t.streamDenies stream_name = false →
        SessionService.get_by_session_id db (generate_session_id stream_name client_ip token)
          = some s →
        (ValidationService.validate_authorization settings db stream_name client_ip token
          protocol now).1 = (true, none, some t)) ∧
      (t.status ≠ "suspended" → t.status ≠ "expired" → ¬ now < t.valid_from →
        t.pastValidUntil now = false → t.ipDenies client_ip = false →
        t.streamDenies stream_name = false →
        SessionService.get_by_session_id db (generate_session_id stream_name client_ip token)
          = none →
        t.max_sessions ≤ SessionService.count_active_sessions_by_user db t.user_id now
          (some (generate_session_id stream_name client_ip token)) →
        (ValidationService.validate_authorization settings db stream_name client_ip token
          protocol now).1 = (false, some "max_sessions_reached", some t)) ∧
      (t.status ≠ "suspended" → t.status ≠ "expired" → ¬ now < t.valid_from →
        t.pastValidUntil now = false → t.ipDenies client_ip = false →
        t.streamDenies stream_name = false →
        SessionService.get_by_session_id db (generate_session_id stream_name client_ip token)
          = none →
        SessionService.count_active_sessions_by_user db t.user_id now
          (some (generate_session_id stream_name client_ip token)) < t.max_sessions →
        (ValidationService.validate_authorization settings db stream_name client_ip token
          protocol now).1 = (true, none, some t))) := by
  constructor
  · intro hfind
    rw [ValidationService.validate_not_found settings db stream_name client_ip token protocol
      now hfind]
  · intro t hfind
    refine ⟨?_, ?_, ?_, ?_, ?_, ?_, ?_, ?_, ?_⟩
    · intro h1
      rw [ValidationService.validate_suspended settings db stream_name client_ip token protocol
        now t hfind h1]
    · intro h1 h2
      rw [ValidationService.validate_status_expired settings db stream_name client_ip token
        protocol now t hfind h1 h2]
    · intro h1 h2 h3
      rw [ValidationService.validate_not_yet_valid settings db stream_name client_ip token
        protocol now t hfind h1 h2 h3]
    · intro h1 h2 h3 h4
      rw [ValidationService.validate_lazy_expire settings db stream_name client_ip token
        protocol now t hfind h1 h2 h3 h4]
      exact ⟨rfl, rfl⟩
    · intro l h1 h2 h3 h4 hl hne hni
      have h5 : t.ipDenies client_ip = true := by
        simp [Token.ipDenies, hl, hne, hni]
      rw [ValidationService.validate_ip_denied settings db stream_name client_ip token protocol
        now t hfind h1 h2 h3 h4 h5]
    · intro h1 h2 h3 h4 h5 h6
      rw [ValidationService.validate_stream_denied settings db stream_name client_ip token
        protocol now t hfind h1 h2 h3 h4 h5 h6]
    · intro s h1 h2 h3 h4 h5 h6 h7
      rw [ValidationService.validate_recheck settings db stream_name client_ip token protocol
        now t hfind h1 h2 h3 h4 h5 h6 s h7]
    · intro h1 h2 h3 h4 h5 h6 h7 h8
      rw [ValidationService.validate_limit_reached settings db stream_name client_ip token
        protocol now t hfind h1 h2 h3 h4 h5 h6 h7 h8]
    · intro h1 h2 h3 h4 h5 h6 h7 h8
      rw [ValidationService.validate_new_session settings db stream_name client_ip token
        protocol now t hfind h1 h2 h3 h4 h5 h6 h7 h8]

/-- Witness: the order theorem's IP conjunct at a concrete token whose IP
allow-list excludes the client while its stream allow-list would have
*allowed* the requested stream — the denial is still `ip_not_allowed`. -/
theorem evaluation_order_and_ip_precedes_stream_witness :
    (ValidationService.validate_authorization wSettings
      { tokens := [mkToken 1 "tok" "u1" "active" 1 (-100) none
          (some ["1.2.3.4"]) (some ["s"])], sessions := [], logs := [] }
      "s" "9.9.9.9" "tok" "hls" 0).1 = (false, some "ip_not_allowed",
        some (mkToken 1 "tok" "u1" "active" 1 (-100) none
          (some ["1.2.3.4"]) (some ["s"]))) :=
  ((evaluation_order_and_ip_precedes_stream wSettings
      { tokens := [mkToken 1 "tok" "u1" "active" 1 (-100) none
          (some ["1.2.3.4"]) (some ["s"])], sessions := [], logs := [] }
      "s" "9.9.9.9" "tok" "hls" 0).2
    (mkToken 1 "tok" "u1" "active" 1 (-100) none (some ["1.2.3.4"]) (some ["s"]))
    (by decide)).2.2.2.2.1 ["1.2.3.4"]
    (by decide) (by decide) (by decide) (by decide) rfl (by decide) (by decide)

/-! ## C3: rechecks always admit and extend expiry -/

theorem update_session_last_check_sessions_of_found (db : DB) (sid : String) (dur now : Int)
    (s : ActiveSession) (h : SessionService.get_by_session_id db sid = some s) :
    (SessionService.update_session_last_check db sid dur now).sessions =
      db.sessions.map fun r =>
        if r.session_id == sid then
          { r with last_checked_at := now, expires_at := some (now + dur) }
        else r := by
  unfold SessionService.update_session_last_check
  rw [h]
  rfl

theorem get_by_session_id_after_update (db : DB) (sid : String) (dur now : Int)
    (s : ActiveSession) (h : SessionService.get_by_session_id db sid = some s) :
    SessionService.get_by_session_id (SessionService.update_session_last_check db sid dur now)
      sid = some { s with last_checked_at := now, expires_at := some (now + dur) } := by
  have hfind : db.sessions.find? (fun r => r.session_id == sid) = some s := h
  have hsid0 := List.find?_some hfind
  have hsid : (s.session_id == sid) = true := hsid0
  unfold SessionService.get_by_session_id
  rw [update_session_last_check_sessions_of_found db sid dur now s h,
    find?_map_comm _ _ ?hp db.sessions]
  case hp =>
    intro r
    by_cases hr : (r.session_id == sid) = true <;> simp [hr]
  have h' : db.sessions.find? (fun r => r.session_id == sid) = some s := h
  rw [h']
  simp [hsid]
  intro hne
  exact absurd (by simpa using hsid) hne

/-- All rechecks of one fixed triple whose fingerprint already has a session
are admitted, at every evaluation time at which the token remains valid,
regardless of the session count or `max_sessions`. -/
theorem runRechecks_all_admitted (settings : Settings)
    (stream_name client_ip token protocol : String) (t : Token) :
    ∀ (times : List Int) (db : DB) (s : ActiveSession),
    TokenService.get_by_token db token = some t →
    t.status ≠ "suspended" → t.status ≠ "expired" →
    t.ipDenies client_ip = false → t.streamDenies stream_name = false →
    SessionService.get_by_session_id db (generate_session_id stream_name client_ip token)
      = some s →
    (∀ n ∈ times, ¬ n < t.valid_from ∧ t.pastValidUntil n = false) →
    (runRechecks settings stream_name client_ip token protocol db times).1 =
      times.map fun _ => ((true : Bool), (none : Option String), (some t : Option Token))
  | [], _, _, _, _, _, _, _, _, _ => rfl
  | n :: rest, db, s, hfind, h1, h2, h5, h6, h7, htimes => by
      have hn := htimes n (List.mem_cons_self n rest)
      have step := ValidationService.validate_recheck settings db stream_name client_ip token
        protocol n t hfind h1 h2 hn.1 hn.2 h5 h6 s h7
      have htok : (ValidationService.validate_authorization settings db stream_name client_ip
          token protocol n).2.tokens = db.tokens := by
        rw [step, ValidationService.log_access_tokens, update_session_last_check_tokens]
      have hsess : SessionService.get_by_session_id
          (ValidationService.validate_authorization settings db stream_name client_ip token
            protocol n).2 (generate_session_id stream_name client_ip token)
          = some
            { s with
                last_checked_at := n, expires_at := some (n + settings.AUTH_DURATION) } := by
        rw [step]
        rw [get_by_session_id_sessions_eq _ _ _
          (ValidationService.log_access_sessions settings _ token (some t.user_id) stream_name
            client_ip protocol "allowed" "session_recheck")]
        exact get_by_session_id_after_update db _ settings.AUTH_DURATION n s h7
      have hfind' : TokenService.get_by_token
          (ValidationService.validate_authorization settings db stream_name client_ip token
            protocol n).2 token = some t := by
        rw [get_by_token_tokens_eq _ _ _ htok]
        exact hfind
      have tail := runRechecks_all_admitted settings stream_name client_ip token protocol t rest
        (ValidationService.validate_authorization settings db stream_name client_ip token
          protocol n).2
        { s with last_checked_at := n, expires_at := some (n + settings.AUTH_DURATION) }
        hfind' h1 h2 h5 h6 hsess
        (fun m hm => htimes m (List.mem_cons_of_mem n hm))
      simp only [runRechecks, List.map_cons]
      rw [step] at tail ⊢
      rw [tail]

/-- Claim C3: for a triple whose fingerprint already has an `ActiveSession`,
re-evaluation while the token remains valid is always admitted (reason
`session_recheck`), never contends for the concurrency limit no matter the
session count or `max_sessions`, each recheck sets the session's expiry to
`now + auth_duration` and its last-checked time to `now`, and arbitrarily
long recheck sequences stay admitted. -/
theorem recheck_always_admits_and_extends (settings : Settings) (db : DB)
    (stream_name client_ip token protocol : String) (t : Token) (s : ActiveSession)
    (hfind : TokenService.get_by_token db token = some t)
    (h1 : t.status ≠ "suspended") (h2 : t.status ≠ "expired")
    (h5 : t.ipDenies client_ip = false) (h6 : t.streamDenies stream_name = false)
    (h7 : SessionService.get_by_session_id db
      (generate_session_id stream_name client_ip token) = some s) :
    (∀ now : Int, ¬ now < t.valid_from → t.pastValidUntil now = false →
      (ValidationService.validate_authorization settings db stream_name client_ip token protocol
        now).1 = (true, none, some t) ∧
      SessionService.get_by_session_id
        (ValidationService.validate_authorization settings db stream_name client_ip token
          protocol now).2 (generate_session_id stream_name client_ip token)
        = some
          { s with
              last_checked_at := now, expires_at := some (now + settings.AUTH_DURATION) } ∧
      (settings.ENABLE_ACCESS_LOGS = true →
        (ValidationService.validate_authorization settings db stream_name client_ip token
          protocol now).2.logs = db.logs ++
          [{ token := token, user_id := some t.user_id, stream_name := stream_name,
             client_ip := client_ip, protocol := protocol, result := "allowed",
             reason := "session_recheck" }])) ∧
    (∀ times : List Int, (∀ n ∈ times, ¬ n < t.valid_from ∧ t.pastValidUntil n = false) →
      (runRechecks settings stream_name client_ip token protocol db times).1 =
        times.map fun _ => ((true : Bool), (none : Option String), (some t : Option Token))) := by
  constructor
  · intro now h3 h4
    have step := ValidationService.validate_recheck settings db stream_name client_ip token
      protocol now t hfind h1 h2 h3 h4 h5 h6 s h7
    refine ⟨by rw [step], ?_, ?_⟩
    · rw [step]
      rw [get_by_session_id_sessions_eq _ _ _
        (ValidationService.log_access_sessions settings _ token (some t.user_id) stream_name
          client_ip protocol "allowed" "session_recheck")]
      exact get_by_session_id_after_update db _ settings.AUTH_DURATION now s h7
    · intro hon
      rw [step, ValidationService.log_access_logs_enabled _ _ _ _ _ _ _ _ _ hon,
        update_session_last_check_logs]
  · intro times htimes
    exact runRechecks_all_admitted settings stream_name client_ip token protocol t times db s
      hfind h1 h2 h5 h6 h7 htimes

/-- Witness: the recheck theorem at a concrete store — a `max_sessions = 1`
token rechecking its existing session is admitted and its expiry is pushed to
`now + 180`. -/
theorem recheck_always_admits_and_extends_witness :
    (ValidationService.validate_authorization wSettings
      { tokens := [mkToken 1 "tok" "u1" "active" 1 (-100) none none none],
        sessions := [mkSession 0 (generate_session_id "s" "a" "tok") "u1" (some 100)],
        logs := [] } "s" "a" "tok" "hls" 0).1
      = (true, none, some (mkToken 1 "tok" "u1" "active" 1 (-100) none none none)) ∧
    SessionService.get_by_session_id
      (ValidationService.validate_authorization wSettings
        { tokens := [mkToken 1 "tok" "u1" "active" 1 (-100) none none none],
          sessions := [mkSession 0 (generate_session_id "s" "a" "tok") "u1" (some 100)],
          logs := [] } "s" "a" "tok" "hls" 0).2 (generate_session_id "s" "a" "tok")
      = some
        { id := 0, session_id := generate_session_id "s" "a" "tok", token_id := 1,
          user_id := "u1", stream_name := "s", client_ip := "a", protocol := "hls",
          started_at := 0, last_checked_at := 0, expires_at := some (0 + 180) } := by
  have h := (recheck_always_admits_and_extends wSettings
    { tokens := [mkToken 1 "tok" "u1" "active" 1 (-100) none none none],
      sessions := [mkSession 0 (generate_session_id "s" "a" "tok") "u1" (some 100)],
      logs := [] } "s" "a" "tok" "hls"
    (mkToken 1 "tok" "u1" "active" 1 (-100) none none none)
    (mkSession 0 (generate_session_id "s" "a" "tok") "u1" (some 100))
    (by decide) (by decide) (by decide) (by decide) (by decide) (by decide)).1 0
    (by decide) (by decide)
  exact ⟨h.1, h.2.1⟩

/-! ## C2: the max-sessions admission boundary -/

theorem mkNewSessions_sids (t : Token) (token protocol : String) (dur now : Int) :
    ∀ (base : Nat) (reqs : List (String × String)),
    (mkNewSessions t token protocol dur now base reqs).map (fun s => s.session_id) =
      reqs.map fun r => generate_session_id r.1 r.2 token
  | _, [] => rfl
  | base, r :: rest => by
      simp only [mkNewSessions, List.map_cons]
      rw [mkNewSessions_sids t token protocol dur now (base + 1) rest]

theorem mkNewSessions_length (t : Token) (token protocol : String) (dur now : Int) :
    ∀ (base : Nat) (reqs : List (String × String)),
    (mkNewSessions t token protocol dur now base reqs).length = reqs.length
  | _, [] => rfl
  | base, r :: rest => by
      simp only [mkNewSessions, List.length_cons]
      rw [mkNewSessions_length t token protocol dur now (base + 1) rest]

theorem mkNewSessions_fields (t : Token) (token protocol : String) (dur now : Int) :
    ∀ (base : Nat) (reqs : List (String × String)),
    ∀ s ∈ mkNewSessions t token protocol dur now base reqs,
      s.user_id = t.user_id ∧ s.expires_at = some (now + dur)
  | _, [], _, hs => absurd hs (List.not_mem_nil _)
  | base, r :: rest, s, hs => by
      rcases List.mem_cons.mp hs with h | h
      · subst h
        exact ⟨rfl, rfl⟩
      · exact mkNewSessions_fields t token protocol dur now (base + 1) rest s h

theorem countQuery_all_counted (L : List ActiveSession) (u : String) (now : Int)
    (h : ∀ s ∈ L, (s.user_id == u && SessionService.sessionActive now s) = true) :
    SessionService.countQuery L u now none = L.length := by
  unfold SessionService.countQuery
  rw [List.filter_eq_self.mpr h]

theorem mkNewSessions_all_counted (t : Token) (token protocol : String) (dur now : Int)
    (hdur : 0 < dur) (base : Nat) (reqs : List (String × String)) :
    ∀ s ∈ mkNewSessions t token protocol dur now base reqs,
      (s.user_id == t.user_id && SessionService.sessionActive now s) = true := by
  intro s hs
  obtain ⟨hu, he⟩ := mkNewSessions_fields t token protocol dur now base reqs s hs
  simp [hu, SessionService.sessionActive, he]
  omega

theorem sessionActive_mono (s : ActiveSession) (now now2 : Int) (hle : now ≤ now2)
    (h : SessionService.sessionActive now2 s = true) :
    SessionService.sessionActive now s = true := by
  unfold SessionService.sessionActive at h ⊢
  cases he : s.expires_at with
  | none => rfl
  | some e =>
      rw [he] at h
      simp at h ⊢
      omega

theorem countQuery_zero_mono (L : List ActiveSession) (u : String) (now now2 : Int)
    (hle : now ≤ now2) (h0 : SessionService.countQuery L u now none = 0) :
    SessionService.countQuery L u now2 none = 0 := by
  unfold SessionService.countQuery at h0 ⊢
  rw [List.length_eq_zero] at h0 ⊢
  rw [List.filter_eq_nil_iff] at h0 ⊢
  intro s hs hpred
  refine h0 s hs ?_
  simp at hpred ⊢
  exact ⟨hpred.1, sessionActive_mono s now now2 hle hpred.2⟩

theorem mkNewSessions_expired_not_counted (t : Token) (token protocol : String) (dur now : Int)
    (base : Nat) (reqs : List (String × String)) (u : String) (now2 : Int)
    (hexp : now + dur ≤ now2) :
    SessionService.countQuery (mkNewSessions t token protocol dur now base reqs) u now2 none
      = 0 := by
  unfold SessionService.countQuery
  rw [List.length_eq_zero, List.filter_eq_nil_iff]
  intro s hs hpred
  obtain ⟨_, he⟩ := mkNewSessions_fields t token protocol dur now base reqs s hs
  simp [SessionService.sessionActive, he] at hpred
  omega

theorem length_filter_ne_sid (x : String) :
    ∀ L : List ActiveSession,
    List.Pairwise (fun a b => a ≠ b) (L.map fun s => s.session_id) →
    x ∈ L.map (fun s => s.session_id) →
    (L.filter fun s => s.session_id != x).length + 1 = L.length
  | [], _, hx => absurd hx (List.not_mem_nil _)
  | a :: L, hnodup, hx => by
      have hnodup' : List.Pairwise (fun a b => a ≠ b)
          (a.session_id :: L.map fun s => s.session_id) := by
        simpa using hnodup
      have hhead := (List.pairwise_cons.mp hnodup').1
      have htail := (List.pairwise_cons.mp hnodup').2
      rcases List.mem_cons.mp hx with h | h
      · have hrest : ∀ s ∈ L, (s.session_id != x) = true := by
          intro s hs
          have hne := hhead s.session_id (List.mem_map_of_mem _ hs)
          simp [h]
          exact fun hc => hne (by rw [← hc])
        simp only [List.filter_cons]
        rw [if_neg (by simp [h]), List.filter_eq_self.mpr hrest]
        rfl
      · have ha : (a.session_id != x) = true := by
          have hne := hhead x h
          simp
          exact fun hc => hne (by rw [hc])
        have ih := length_filter_ne_sid x L htail h
        simp only [List.filter_cons]
        rw [if_pos ha]
        simp only [List.length_cons]
        omega

theorem delete_session_tokens (db : DB) (sid : String) :
    (SessionService.delete_session db sid).2.tokens = db.tokens := by
  unfold SessionService.delete_session
  split <;> rfl

theorem delete_session_logs (db : DB) (sid : String) :
    (SessionService.delete_session db sid).2.logs = db.logs := by
  unfold SessionService.delete_session
  split <;> rfl

/-- Fresh admissions: starting from a store in which none of the requested
fingerprints has a session, a run of pairwise-distinct fresh fingerprints
that fits under `max_sessions` is admitted throughout; the store gains
exactly the corresponding `create_session` rows and `new_session` audit
rows, and the token table is untouched. -/
theorem runRequests_all_new (settings : Settings) (token protocol : String) (now : Int)
    (t : Token) (h1 : t.status ≠ "suspended") (h2 : t.status ≠ "expired")
    (h3 : ¬ now < t.valid_from) (h4 : t.pastValidUntil now = false)
    (hdur : 0 < settings.AUTH_DURATION) :
    ∀ (reqs : List (String × String)) (db : DB),
    TokenService.get_by_token db token = some t →
    (∀ r ∈ reqs, t.ipDenies r.2 = false ∧ t.streamDenies r.1 = false) →
    List.Pairwise (fun a b => a ≠ b)
      (reqs.map fun r => generate_session_id r.1 r.2 token) →
    (∀ r ∈ reqs, ∀ s ∈ db.sessions, s.session_id ≠ generate_session_id r.1 r.2 token) →
    SessionService.countQuery db.sessions t.user_id now none + reqs.length ≤ t.max_sessions →
    (runRequests settings token protocol now db reqs).1 =
      reqs.map (fun _ => ((true : Bool), (none : Option String), (some t : Option Token))) ∧
    (runRequests settings token protocol now db reqs).2.tokens = db.tokens ∧
    (runRequests settings token protocol now db reqs).2.sessions =
      db.sessions ++ mkNewSessions t token protocol settings.AUTH_DURATION now
        db.sessions.length reqs ∧
    (settings.ENABLE_ACCESS_LOGS = true →
      (runRequests settings token protocol now db reqs).2.logs =
        db.logs ++ reqs.map (mkNewLog t token protocol)) ∧
    (settings.ENABLE_ACCESS_LOGS = false →
      (runRequests settings token protocol now db reqs).2.logs = db.logs)
  | [], db, _, _, _, _, _ => by
      refine ⟨rfl, rfl, by simp [mkNewSessions, runRequests], fun _ => by simp [runRequests],
        fun _ => rfl⟩
  | (s, ip) :: rest, db, hfind, hlists, hdist, hfresh, hcap => by
      have hr := hlists (s, ip) (List.mem_cons_self (s, ip) rest)
      have h7 : SessionService.get_by_session_id db (generate_session_id s ip token)
          = none := by
        apply List.find?_eq_none.mpr
        intro q hq
        have := hfresh (s, ip) (List.mem_cons_self (s, ip) rest) q hq
        simp [this]
      have hexle := countQuery_exclude_le db.sessions t.user_id now
        (some (generate_session_id s ip token))
      have h8 : SessionService.count_active_sessions_by_user db t.user_id now
          (some (generate_session_id s ip token)) < t.max_sessions := by
        have hle : SessionService.count_active_sessions_by_user db t.user_id now
            (some (generate_session_id s ip token)) ≤
            SessionService.countQuery db.sessions t.user_id now none := hexle
        simp only [List.length_cons] at hcap
        omega
      have step := ValidationService.validate_new_session settings db s ip token protocol
        now t hfind h1 h2 h3 h4 hr.1 hr.2 h7 h8
      have hdc : List.Pairwise (fun a b => a ≠ b)
          (generate_session_id s ip token ::
            rest.map fun q => generate_session_id q.1 q.2 token) := by
        simpa using hdist
      have hdist' : List.Pairwise (fun a b => a ≠ b)
          (rest.map fun q => generate_session_id q.1 q.2 token) :=
        (List.pairwise_cons.mp hdc).2
      have hdisthead : ∀ q ∈ rest,
          generate_session_id s ip token ≠ generate_session_id q.1 q.2 token := by
        intro q hq
        exact (List.pairwise_cons.mp hdc).1 _ (List.mem_map_of_mem _ hq)
      have htok1 : (ValidationService.validate_authorization settings db s ip token protocol
          now).2.tokens = db.tokens := by
        rw [step, ValidationService.log_access_tokens, create_session_tokens]
      have hsess1 : (ValidationService.validate_authorization settings db s ip token protocol
          now).2.sessions = db.sessions ++
            mkNewSessions t token protocol settings.AUTH_DURATION now db.sessions.length
              [(s, ip)] := by
        rw [step, ValidationService.log_access_sessions, create_session_sessions]
        rfl
      have hfind1 : TokenService.get_by_token
          (ValidationService.validate_authorization settings db s ip token protocol now).2
          token = some t := by
        rw [get_by_token_tokens_eq _ _ _ htok1]
        exact hfind
      have hfresh1 : ∀ q ∈ rest,
          ∀ x ∈ (ValidationService.validate_authorization settings db s ip token protocol
            now).2.sessions, x.session_id ≠ generate_session_id q.1 q.2 token := by
        intro q hq x hx
        rw [hsess1] at hx
        rcases List.mem_append.mp hx with hxl | hxr
        · exact hfresh q (List.mem_cons_of_mem (s, ip) hq) x hxl
        · have hxs : x.session_id = generate_session_id s ip token := by
            have hmem : x.session_id ∈ (mkNewSessions t token protocol settings.AUTH_DURATION
                now db.sessions.length [(s, ip)]).map (fun y => y.session_id) :=
              List.mem_map_of_mem _ hxr
            rw [mkNewSessions_sids] at hmem
            simpa using hmem
          rw [hxs]
          exact hdisthead q hq
      have hcap1 : SessionService.countQuery
          (ValidationService.validate_authorization settings db s ip token protocol
            now).2.sessions t.user_id now none + rest.length ≤ t.max_sessions := by
        rw [hsess1, countQuery_append]
        have hone : SessionService.countQuery
            (mkNewSessions t token protocol settings.AUTH_DURATION now db.sessions.length
              [(s, ip)]) t.user_id now none = 1 := by
          rw [countQuery_all_counted _ _ _
            (mkNewSessions_all_counted t token protocol settings.AUTH_DURATION now hdur
              db.sessions.length [(s, ip)]),
            mkNewSessions_length]
          rfl
        rw [hone]
        simp only [List.length_cons] at hcap
        omega
      have ih := runRequests_all_new settings token protocol now t h1 h2 h3 h4 hdur rest
        (ValidationService.validate_authorization settings db s ip token protocol now).2
        hfind1 (fun q hq => hlists q (List.mem_cons_of_mem (s, ip) hq)) hdist' hfresh1 hcap1
      obtain ⟨ihres, ihtok, ihsess, ihlogon, ihlogoff⟩ := ih
      have hlen1 : (ValidationService.validate_authorization settings db s ip token protocol
          now).2.sessions.length = db.sessions.length + 1 := by
        rw [hsess1, List.length_append, mkNewSessions_length]
        rfl
      refine ⟨?_, ?_, ?_, ?_, ?_⟩
      · show ((ValidationService.validate_authorization settings db s ip token protocol
            now).1 ::
            (runRequests settings token protocol now
              (ValidationService.validate_authorization settings db s ip token protocol now).2
              rest).1) =
          List.map (fun _ => ((true : Bool), (none : Option String),
            (some t : Option Token))) ((s, ip) :: rest)
        rw [ihres, step]
        simp
      · show (runRequests settings token protocol now
            (ValidationService.validate_authorization settings db s ip token protocol now).2
            rest).2.tokens = db.tokens
        rw [ihtok, htok1]
      · show (runRequests settings token protocol now
            (ValidationService.validate_authorization settings db s ip token protocol now).2
            rest).2.sessions =
          db.sessions ++ mkNewSessions t token protocol settings.AUTH_DURATION now
            db.sessions.length ((s, ip) :: rest)
        rw [ihsess, hlen1, hsess1]
        simp only [mkNewSessions, List.append_assoc]
        rfl
      · intro hon
        show (runRequests settings token protocol now
            (ValidationService.validate_authorization settings db s ip token protocol now).2
            rest).2.logs =
          db.logs ++ List.map (mkNewLog t token protocol) ((s, ip) :: rest)
        rw [ihlogon hon, step, ValidationService.log_access_logs_enabled _ _ _ _ _ _ _ _ _ hon,
          create_session_logs]
        simp [mkNewLog]
      · intro hoff
        show (runRequests settings token protocol now
            (ValidationService.validate_authorization settings db s ip token protocol now).2
            rest).2.logs = db.logs
        rw [ihlogoff hoff, step, ValidationService.log_access_logs_disabled _ _ _ _ _ _ _ _ _
          hoff, create_session_logs]

/-- Claim C2: with `max_sessions = N`, starting from a store holding no
active session for the identity, `N` new-admission requests with `N` distinct
fresh fingerprints are all admitted as `new_session`; an `(N+1)`-th request
with yet another distinct fingerprint is then denied `max_sessions_reached`;
deleting any one of the `N` created sessions, or letting them all expire,
frees a slot so that the extra request is admitted; and the admission count
is the identity's non-expired sessions excluding the requested fingerprint
itself. -/
theorem max_sessions_boundary (settings : Settings) (db : DB)
    (token protocol : String) (now : Int) (t : Token)
    (reqs : List (String × String)) (s' ip' : String)
    (hfind : TokenService.get_by_token db token = some t)
    (h1 : t.status ≠ "suspended") (h2 : t.status ≠ "expired")
    (h3 : ¬ now < t.valid_from) (h4 : t.pastValidUntil now = false)
    (hdur : 0 < settings.AUTH_DURATION)
    (hlists : ∀ r ∈ reqs, t.ipDenies r.2 = false ∧ t.streamDenies r.1 = false)
    (hip' : t.ipDenies ip' = false) (hstream' : t.streamDenies s' = false)
    (hdist : List.Pairwise (fun a b => a ≠ b)
      (reqs.map fun r => generate_session_id r.1 r.2 token))
    (hfresh : ∀ r ∈ reqs, ∀ x ∈ db.sessions,
      x.session_id ≠ generate_session_id r.1 r.2 token)
    (hfresh' : ∀ x ∈ db.sessions, x.session_id ≠ generate_session_id s' ip' token)
    (hdist' : ∀ r ∈ reqs,
      generate_session_id r.1 r.2 token ≠ generate_session_id s' ip' token)
    (hcount0 : SessionService.count_active_sessions_by_user db t.user_id now none = 0)
    (hN : reqs.length = t.max_sessions) :
    (runRequests settings token protocol now db reqs).1 =
      reqs.map (fun _ => ((true : Bool), (none : Option String), (some t : Option Token))) ∧
    (settings.ENABLE_ACCESS_LOGS = true →
      (runRequests settings token protocol now db reqs).2.logs =
        db.logs ++ reqs.map (mkNewLog t token protocol)) ∧
    (ValidationService.validate_authorization settings
      (runRequests settings token protocol now db reqs).2 s' ip' token protocol now).1 =
      (false, some "max_sessions_reached", some t) ∧
    (∀ r ∈ reqs,
      (ValidationService.validate_authorization settings
        (SessionService.delete_session (runRequests settings token protocol now db reqs).2
          (generate_session_id r.1 r.2 token)).2 s' ip' token protocol now).1 =
        (true, none, some t)) ∧
    (∀ now2 : Int, now + settings.AUTH_DURATION ≤ now2 → reqs ≠ [] →
      ¬ now2 < t.valid_from → t.pastValidUntil now2 = false →
      (ValidationService.validate_authorization settings
        (runRequests settings token protocol now db reqs).2 s' ip' token protocol now2).1 =
        (true, none, some t)) ∧
    (∀ (db2 : DB) (u sid : String), sid ≠ "" →
      SessionService.count_active_sessions_by_user db2 u now (some sid) =
        (db2.sessions.filter fun x =>
          x.user_id == u && SessionService.sessionActive now x && x.session_id != sid).length)
    := by
  have hcount0' : SessionService.countQuery db.sessions t.user_id now none = 0 := hcount0
  have hcap : SessionService.countQuery db.sessions t.user_id now none + reqs.length ≤
      t.max_sessions := by omega
  obtain ⟨hres, htokN, hsessN, hlogN, _⟩ := runRequests_all_new settings token protocol now t
    h1 h2 h3 h4 hdur reqs db hfind hlists hdist hfresh hcap
  have hfindN : TokenService.get_by_token
      (runRequests settings token protocol now db reqs).2 token = some t := by
    rw [get_by_token_tokens_eq _ _ _ htokN]
    exact hfind
  have hmkcount : SessionService.countQuery
      (mkNewSessions t token protocol settings.AUTH_DURATION now db.sessions.length reqs)
      t.user_id now none = reqs.length := by
    rw [countQuery_all_counted _ _ _
      (mkNewSessions_all_counted t token protocol settings.AUTH_DURATION now hdur
        db.sessions.length reqs), mkNewSessions_length]
  have hfreshN : ∀ x ∈ (runRequests settings token protocol now db reqs).2.sessions,
      x.session_id ≠ generate_session_id s' ip' token := by
    intro x hx
    rw [hsessN] at hx
    rcases List.mem_append.mp hx with hxl | hxr
    · exact hfresh' x hxl
    · have hmem : x.session_id ∈ (mkNewSessions t token protocol settings.AUTH_DURATION now
          db.sessions.length reqs).map (fun y => y.session_id) := List.mem_map_of_mem _ hxr
      rw [mkNewSessions_sids] at hmem
      obtain ⟨q, hq, hqx⟩ := List.mem_map.mp hmem
      rw [← hqx]
      exact hdist' q hq
  have h7N : SessionService.get_by_session_id
      (runRequests settings token protocol now db reqs).2
      (generate_session_id s' ip' token) = none := by
    apply List.find?_eq_none.mpr
    intro x hx
    simp [hfreshN x hx]
  have hcountN : SessionService.countQuery
      (runRequests settings token protocol now db reqs).2.sessions t.user_id now
      (some (generate_session_id s' ip' token)) = reqs.length := by
    rw [countQuery_exclude_absent _ _ _ _ hfreshN, hsessN, countQuery_append, hcount0',
      hmkcount]
    omega
  refine ⟨hres, hlogN, ?_, ?_, ?_, ?_⟩
  · have h8N : t.max_sessions ≤ SessionService.count_active_sessions_by_user
        (runRequests settings token protocol now db reqs).2 t.user_id now
        (some (generate_session_id s' ip' token)) := by
      show t.max_sessions ≤ SessionService.countQuery _ _ _ _
      rw [hcountN, hN]
    rw [ValidationService.validate_limit_reached settings _ s' ip' token protocol now t hfindN
      h1 h2 h3 h4 hip' hstream' h7N h8N]
  · intro r hr
    have hmemsid : generate_session_id r.1 r.2 token ∈
        (runRequests settings token protocol now db reqs).2.sessions.map
          (fun y => y.session_id) := by
      rw [hsessN]
      rw [List.map_append, mkNewSessions_sids]
      exact List.mem_append.mpr (Or.inr (List.mem_map_of_mem _ hr))
    obtain ⟨row, hrow, hrowsid⟩ := List.mem_map.mp hmemsid
    have hdel_some : (SessionService.get_by_session_id
        (runRequests settings token protocol now db reqs).2
        (generate_session_id r.1 r.2 token)).isSome = true := by
      unfold SessionService.get_by_session_id
      rw [List.find?_isSome]
      exact ⟨row, hrow, by simp [hrowsid]⟩
    have hdels : (SessionService.delete_session
        (runRequests settings token protocol now db reqs).2
        (generate_session_id r.1 r.2 token)).2.sessions =
        (runRequests settings token protocol now db reqs).2.sessions.filter
          (fun x => x.session_id != generate_session_id r.1 r.2 token) := by
      unfold SessionService.delete_session
      rw [if_pos hdel_some]
    have hfind_d : TokenService.get_by_token
        (SessionService.delete_session (runRequests settings token protocol now db reqs).2
          (generate_session_id r.1 r.2 token)).2 token = some t := by
      rw [get_by_token_tokens_eq _ _ _ (delete_session_tokens _ _)]
      exact hfindN
    have hfresh_d : ∀ x ∈ (SessionService.delete_session
        (runRequests settings token protocol now db reqs).2
        (generate_session_id r.1 r.2 token)).2.sessions,
        x.session_id ≠ generate_session_id s' ip' token := by
      intro x hx
      rw [hdels] at hx
      exact hfreshN x (List.mem_of_mem_filter hx)
    have h7d : SessionService.get_by_session_id
        (SessionService.delete_session (runRequests settings token protocol now db reqs).2
          (generate_session_id r.1 r.2 token)).2
        (generate_session_id s' ip' token) = none := by
      apply List.find?_eq_none.mpr
      intro x hx
      simp [hfresh_d x hx]
    have hnodupN : List.Pairwise (fun a b => a ≠ b)
        ((mkNewSessions t token protocol settings.AUTH_DURATION now db.sessions.length
          reqs).map fun y => y.session_id) := by
      rw [mkNewSessions_sids]
      exact hdist
    have hmemmk : generate_session_id r.1 r.2 token ∈
        (mkNewSessions t token protocol settings.AUTH_DURATION now db.sessions.length
          reqs).map (fun y => y.session_id) := by
      rw [mkNewSessions_sids]
      exact List.mem_map_of_mem _ hr
    have hflen := length_filter_ne_sid (generate_session_id r.1 r.2 token)
      (mkNewSessions t token protocol settings.AUTH_DURATION now db.sessions.length reqs)
      hnodupN hmemmk
    have hdbfilter : db.sessions.filter
        (fun x => x.session_id != generate_session_id r.1 r.2 token) = db.sessions :=
      List.filter_eq_self.mpr (fun x hx => by simp [hfresh r hr x hx])
    have hcount_d : SessionService.countQuery
        (SessionService.delete_session (runRequests settings token protocol now db reqs).2
          (generate_session_id r.1 r.2 token)).2.sessions t.user_id now
        (some (generate_session_id s' ip' token)) + 1 = reqs.length := by
      rw [countQuery_exclude_absent _ _ _ _ hfresh_d, hdels, hsessN, List.filter_append,
        countQuery_append, hdbfilter, hcount0']
      rw [countQuery_all_counted _ _ _ (fun x hx =>
        mkNewSessions_all_counted t token protocol settings.AUTH_DURATION now hdur
          db.sessions.length reqs x (List.mem_of_mem_filter hx))]
      rw [mkNewSessions_length] at hflen
      omega
    have h8d : SessionService.count_active_sessions_by_user
        (SessionService.delete_session (runRequests settings token protocol now db reqs).2
          (generate_session_id r.1 r.2 token)).2 t.user_id now
        (some (generate_session_id s' ip' token)) < t.max_sessions := by
      show SessionService.countQuery _ _ _ _ < t.max_sessions
      have hpos : 0 < reqs.length := List.length_pos.mpr (by
        intro hnil
        rw [hnil] at hr
        exact absurd hr (List.not_mem_nil _))
      omega
    rw [ValidationService.validate_new_session settings _ s' ip' token protocol now t hfind_d
      h1 h2 h3 h4 hip' hstream' h7d h8d]
  · intro now2 hle2 hne h3' h4'
    have hlenow : now ≤ now2 := by omega
    have hcount2 : SessionService.countQuery
        (runRequests settings token protocol now db reqs).2.sessions t.user_id now2
        (some (generate_session_id s' ip' token)) = 0 := by
      rw [countQuery_exclude_absent _ _ _ _ hfreshN, hsessN, countQuery_append,
        countQuery_zero_mono db.sessions t.user_id now now2 hlenow hcount0',
        mkNewSessions_expired_not_counted t token protocol settings.AUTH_DURATION now
          db.sessions.length reqs t.user_id now2 hle2]
    have h8e : SessionService.count_active_sessions_by_user
        (runRequests settings token protocol now db reqs).2 t.user_id now2
        (some (generate_session_id s' ip' token)) < t.max_sessions := by
      show SessionService.countQuery _ _ _ _ < t.max_sessions
      rw [hcount2, ← hN]
      exact List.length_pos.mpr hne
    rw [ValidationService.validate_new_session settings _ s' ip' token protocol now2 t hfindN
      h1 h2 h3' h4' hip' hstream' h7N h8e]
  · intro db2 u sid hsid
    have hb : (sid == "") = false := by simpa using hsid
    simp only [SessionService.count_active_sessions_by_user, SessionService.countQuery, hb,
      Bool.false_eq_true, if_false, List.filter_filter]
    refine congrArg List.length (List.filter_congr ?_)
    intro a _
    cases hx : a.session_id != sid <;> cases hy : a.user_id == u <;>
      cases hz : SessionService.sessionActive now a <;> simp [hx, hy, hz]

/-- Witness: the boundary theorem at `max_sessions = 1` — after admitting
stream `s1`, the distinct-fingerprint request for `s2` with the same token is
denied `max_sessions_reached`. -/
theorem max_sessions_boundary_witness :
    (ValidationService.validate_authorization wSettings
      (runRequests wSettings "tok" "hls" 0
        { tokens := [mkToken 1 "tok" "u1" "active" 1 (-100) none none none],
          sessions := [], logs := [] } [("s1", "a")]).2 "s2" "a" "tok" "hls" 0).1 =
      (false, some "max_sessions_reached",
        some (mkToken 1 "tok" "u1" "active" 1 (-100) none none none)) :=
  (max_sessions_boundary wSettings
    { tokens := [mkToken 1 "tok" "u1" "active" 1 (-100) none none none],
      sessions := [], logs := [] } "tok" "hls" 0
    (mkToken 1 "tok" "u1" "active" 1 (-100) none none none) [("s1", "a")] "s2" "a"
    (by decide) (by decide) (by decide) (by decide) (by decide) (by decide)
    (by decide) (by decide) (by decide) (by simp) (by simp) (by simp)
    (by decide) (by decide) (by decide)).2.2.1
